import Mathlib

/-!
Verification of the viral-kid automated-reply pipeline against its
natural-language specification.

The development shallowly embeds the TypeScript sources:
pure computations become Lean functions; every external HTTP interaction
is an explicit oracle value handed to the embedded function, and the
embedded function reports the calls it would issue as an explicit trace.
Timestamps are integers (milliseconds since epoch, as JavaScript Date
values compare numerically).  String lengths and slices use code points
where JavaScript uses UTF-16 units; all inputs considered here are ASCII,
where the two coincide.
-/

deriving instance DecidableEq for Except

namespace ViralKid

/-- An outbound HTTP call issued by embedded code.  `viaLimiter` records
whether the call site wrapped the request in one of the Bottleneck rate
limiters from the rate-limiter module; in the sources every pipeline call
site invokes `fetch` (or the twitter-api-v2 client) directly, so the flag
is `false` at every call site. -/
structure HttpCall where
  target : String
  viaLimiter : Bool
deriving Repr, DecidableEq

/-- JavaScript falsiness of a nullable string (`!x` is true for both
`null`/`undefined` and the empty string). -/
def jsStrFalsy : Option String → Bool
  | none => true
  | some s => s.isEmpty

/-- JavaScript `x || d` for a nullable string: the default is used when
the string is absent or empty. -/
def jsOrStr (x : Option String) (d : String) : String :=
  match x with
  | none => d
  | some s => if s.isEmpty then d else s

/-- JavaScript `x || d` for a nullable number: the default is used when
the number is absent or equal to 0 (0 is falsy). -/
def jsOrInt (x : Option Int) (d : Int) : Int :=
  match x with
  | none => d
  | some v => if v = 0 then d else v

/-- Bottleneck constructor options, as in the rate-limiter module. -/
structure BottleneckOptions where
  reservoir : Option Int := none
  reservoirRefreshAmount : Option Int := none
  reservoirRefreshInterval : Option Int := none
  maxConcurrent : Option Int := none
  minTime : Option Int := none
deriving Repr, DecidableEq

/-- `twitterLimiter` from the rate-limiter module (15 requests / 15 min). -/
def twitterLimiter : BottleneckOptions :=
  { reservoir := some 15, reservoirRefreshAmount := some 15,
    reservoirRefreshInterval := some (15 * 60 * 1000),
    maxConcurrent := some 1, minTime := some 1000 }

/-- `youtubeLimiter` from the rate-limiter module. -/
def youtubeLimiter : BottleneckOptions :=
  { reservoir := some 100, reservoirRefreshAmount := some 100,
    reservoirRefreshInterval := some (24 * 60 * 60 * 1000),
    maxConcurrent := some 2, minTime := some 500 }

/-- `instagramLimiter` from the rate-limiter module. -/
def instagramLimiter : BottleneckOptions :=
  { reservoir := some 200, reservoirRefreshAmount := some 200,
    reservoirRefreshInterval := some (60 * 60 * 1000),
    maxConcurrent := some 1, minTime := some 500 }

/-- `openRouterLimiter` from the rate-limiter module. -/
def openRouterLimiter : BottleneckOptions :=
  { maxConcurrent := some 5, minTime := some 200 }

namespace LLM

/-- The double-quote character. -/
def quoteChar : Char := Char.ofNat 34

/-- The single-quote character. -/
def aposChar : Char := Char.ofNat 39

/-- JavaScript regex `\s` (whitespace), restricted to the ASCII range. -/
def isJsWs (c : Char) : Bool := c.isWhitespace

/-- Leading and trailing whitespace removed from a character list. -/
def trimList (cs : List Char) : List Char :=
  ((cs.dropWhile isJsWs).reverse.dropWhile isJsWs).reverse

/-- JavaScript `s.trim()` (on the ASCII whitespace JavaScript and this
development share). -/
def jsTrim (s : String) : String := String.mk (trimList s.toList)

/-- JavaScript `s.slice(0, n)` (code points standing in for UTF-16
units). -/
def jsSlice (s : String) (n : Nat) : String := String.mk (s.toList.take n)

/-- JavaScript `s.split(sep)` for a one-character separator:
`"".split(sep)` is `[""]`, and every separator occurrence opens a new
(possibly empty) field. -/
def splitOnChar (sep : Char) : List Char → List (List Char)
  | [] => [[]]
  | c :: rest =>
    let r := splitOnChar sep rest
    if c = sep then [] :: r
    else
      match r with
      | h :: t => (c :: h) :: t
      | [] => [[c]]

/-- Characters of a string, lower-cased: both sides of a case-insensitive
(`/i`) regex comparison are normalized through this. -/
def lcList (s : String) : List Char := s.toList.map Char.toLower

/-- Is `sub` a contiguous sublist of `l`? -/
def infixOfB (sub : List Char) : List Char → Bool
  | [] => sub.isEmpty
  | c :: rest => sub.isPrefixOf (c :: rest) || infixOfB sub rest

/-- `s.includes(sub)` on strings. -/
def containsSub (s sub : String) : Bool := infixOfB sub.toList s.toList

/-- Matches the regex tail `.*?[.!]\s*` (lazy, `.` does not cross a
newline) against `cs`: finds the first `.` or `!` not preceded by a
newline, then greedily drops the whitespace that follows it.  Returns the
remainder of the string after the whole match, or `none` when the tail
cannot match. -/
def openerTermSplit : List Char → Option (List Char)
  | [] => none
  | c :: rest =>
    if c = '.' || c = '!' then some (rest.dropWhile isJsWs)
    else if c = '\n' then none
    else openerTermSplit rest

/-- One application of the first thinking-pattern regex
`^(<opener1>|<opener2>|...).*?[.!]\s*` (case-insensitive, non-global) as
`String.replace(pattern, "")`: no listed opener is a prefix of another,
so at most one alternative can match at position 0 and `find?` mirrors
the regex engine trying the alternatives in order. -/
def stripOpener (openers : List String) (s : String) : String :=
  match openers.find? (fun o => (lcList o).isPrefixOf (lcList s)) with
  | none => s
  | some o =>
    match openerTermSplit (s.toList.drop o.length) with
    | none => s
    | some rest => String.mk rest

/-- Matches the regex tail `.*?\n+` (lazy dot, then a greedy run of
newlines): everything up to and including the first newline run is
consumed. -/
def labelNlSplit (cs : List Char) : Option (List Char) :=
  if cs.contains '\n' then
    some ((cs.dropWhile (fun c => c != '\n')).dropWhile (fun c => c == '\n'))
  else none

/-- One application of the second thinking-pattern regex
`^(Key details|Details|...):.*?\n+` (case-insensitive, non-global) as
`String.replace(pattern, "")`. -/
def stripLabel (labels : List String) (s : String) : String :=
  match labels.find? (fun o => (lcList (o ++ ":")).isPrefixOf (lcList s)) with
  | none => s
  | some o =>
    match labelNlSplit (s.toList.drop (o.length + 1)) with
    | none => s
    | some rest => String.mk rest

/-- Drops everything up to and including the first newline. -/
def afterFirstNl (cs : List Char) : List Char :=
  (cs.dropWhile (fun c => c != '\n')).drop 1

/-- Backtracking worker for `wsTail`: tries the greedy `\s+` length `k`
first and shortens it while the rest of the pattern cannot match. -/
def wsTailAux (cs : List Char) : Nat → Option (List Char)
  | 0 => none
  | k + 1 =>
    let rest := cs.drop (k + 1)
    if rest.contains '\n' then some (afterFirstNl rest) else wsTailAux cs k

/-- Matches the regex tail `\s+.*?\n` against `cs`: `\s+` is greedy with
backtracking, `.*?` is lazy (so it reaches exactly the first newline of
what remains).  Returns the remainder after the match. -/
def wsTail (cs : List Char) : Option (List Char) :=
  wsTailAux cs (cs.takeWhile isJsWs).length

/-- The character class `[-â€¢*]` of the bullet-point pattern (the bullet
character • appears in the source as the three mojibake characters). -/
def bulletMark (c : Char) : Bool :=
  c = '-' || c = 'â' || c = '€' || c = '¢' || c = '*'

/-- Fuel-indexed worker for `scanBullets`.  Every recursive call strictly
shortens the character list, so the entry point's fuel of `length + 1`
can never run out; the out-of-fuel branch is unreachable. -/
def scanBulletsF : Nat → List Char → Bool → List Char
  | 0, cs, _ => cs
  | _ + 1, [], _ => []
  | fuel + 1, c :: rest, atStart =>
    if atStart && bulletMark c then
      match wsTail rest with
      | some rem => scanBulletsF fuel rem true
      | none => c :: scanBulletsF fuel rest (c == '\n')
    else c :: scanBulletsF fuel rest (c == '\n')

/-- Global, multiline application of the bullet-point pattern
`/^[-â€¢*]\s+.*?\n/gm` as `String.replace(pattern, "")`: matches can only
start at a line start, and scanning resumes right after each match (which
always ends just after a newline, i.e. at a line start). -/
def scanBullets (cs : List Char) : List Char :=
  scanBulletsF (cs.length + 1) cs true

/-- Fuel-indexed worker for `scanNumbered`; fuel as in `scanBulletsF`. -/
def scanNumberedF : Nat → List Char → Bool → List Char
  | 0, cs, _ => cs
  | _ + 1, [], _ => []
  | fuel + 1, c :: rest, atStart =>
    if atStart && c.isDigit then
      match rest.drop (rest.takeWhile Char.isDigit).length with
      | '.' :: tail =>
        match wsTail tail with
        | some rem => scanNumberedF fuel rem true
        | none => c :: scanNumberedF fuel rest (c == '\n')
      | _ => c :: scanNumberedF fuel rest (c == '\n')
    else c :: scanNumberedF fuel rest (c == '\n')

/-- Global, multiline application of the numbered-list pattern
`/^\d+\.\s+.*?\n/gm` as `String.replace(pattern, "")`: a greedy digit run
must be immediately followed by a literal dot (no shorter digit run could
satisfy the dot either, as the next character would still be a digit),
then the `\s+.*?\n` tail as in the bullet pattern. -/
def scanNumbered (cs : List Char) : List Char :=
  scanNumberedF (cs.length + 1) cs true

/-- Fuel-indexed worker for `firstQuoted`; fuel as in `scanBulletsF`. -/
def firstQuotedF : Nat → List Char → Option (List Char)
  | 0, _ => none
  | fuel + 1, cs =>
    match cs.dropWhile (fun c => c != quoteChar) with
    | [] => none
    | _ :: rest =>
      let run := rest.takeWhile (fun c => c != quoteChar)
      let rem := rest.drop run.length
      if rem ≠ [] && run ≠ [] then some run else firstQuotedF fuel rest

/-- The leftmost match of `/"([^"]+)"/` (non-global): the first
double-quote that is followed by at least one non-quote character and a
closing double-quote; returns the captured group (the regex engine moves
its start position past a quote whose match attempt fails). -/
def firstQuoted (cs : List Char) : Option (List Char) :=
  firstQuotedF (cs.length + 1) cs

/-- The last-non-empty-line fallback: split on newlines, drop blank
lines, and adopt the trimmed last line when its length is in
`(10, maxLen)`. -/
def fallbackLastLine (r : String) (maxLen : Nat) : String :=
  let lines := ((splitOnChar '\n' r.toList).map String.mk).filter
    (fun l => !(jsTrim l).isEmpty)
  match lines.getLast? with
  | none => r
  | some last0 =>
    let lastLine := jsTrim last0
    if !lastLine.isEmpty && lastLine.length > 10 && lastLine.length < maxLen then
      lastLine
    else r

/-- The residual-meta-language fallback: prefer a quoted substring longer
than 10 characters, else the last non-empty line of length in
`(10, maxLen)`, else leave the reply unchanged. -/
def extractQuotedOrLast (r : String) (maxLen : Nat) : String :=
  match firstQuoted r.toList with
  | some q => if q.length > 10 then String.mk q else fallbackLastLine r maxLen
  | none => fallbackLastLine r maxLen

/-- One application of `/^["']|["']$/g` as `String.replace(pattern, "")`:
removes one leading and one trailing quote character. -/
def stripEdgeQuotes (s : String) : String :=
  let cs := s.toList
  let cs1 := match cs with
    | c :: rest => if c = quoteChar || c = aposChar then rest else cs
    | [] => []
  let cs2 := match cs1.getLast? with
    | some c => if c = quoteChar || c = aposChar then cs1.dropLast else cs1
    | none => cs1
  String.mk cs2

/-- The whole thinking-pattern cleanup block shared (up to its opener
list, residual-marker list and last-line length cap) by the Reddit
`generateReply` and the Twitter route's `generateReplyWithLLM`:
each pattern replacement is followed by `.trim()`, then the residual
`includes` checks gate the quoted/last-line extraction, then wrapping
quotes are stripped. -/
def cleanupReply (openers markers : List String) (lastLineMax : Nat)
    (reply0 : String) : String :=
  let labels : List String :=
    ["Key details", "Details", "Context", "Analysis", "Reasoning",
     "Thinking", "Response"]
  let r1 := jsTrim (stripOpener openers reply0)
  let r2 := jsTrim (stripLabel labels r1)
  let r3 := jsTrim (String.mk (scanBullets r2.toList))
  let r4 := jsTrim (String.mk (scanNumbered r3.toList))
  let r5 := if markers.any (fun m => containsSub r4 m) then
      extractQuotedOrLast r4 lastLineMax
    else r4
  jsTrim (stripEdgeQuotes r5)

end LLM

namespace Reddit

/-- `RedditPost` from the Reddit type definitions. -/
structure RedditPost where
  id : String
  name : String
  title : String
  selftext : String
  author : String
  subreddit : String
  url : String
  permalink : String
  ups : Int
  num_comments : Int
  created_utc : Int
deriving Repr, DecidableEq

/-- `RedditCredentialsForRefresh` from the Reddit type definitions;
the nullable fields are `Option`s and the expiry is in epoch ms. -/
structure RedditCredentialsForRefresh where
  clientId : String
  clientSecret : String
  accessToken : Option String
  refreshToken : Option String
  tokenExpiresAt : Option Int
deriving Repr, DecidableEq

/-- `RedditTokenResult` from the Reddit type definitions. -/
structure RedditTokenResult where
  accessToken : String
  expiresAt : Int
deriving Repr, DecidableEq

/-- Oracle for the one `fetch` of the Reddit token endpoint: either a 2xx
response carrying `access_token` and `expires_in` (seconds), or a non-2xx
response whose body text is surfaced. -/
inductive TokenEndpoint where
  | ok (access_token : String) (expires_in : Int)
  | httpError (body : String)
deriving Repr, DecidableEq

/-- Result of the embedded `refreshTokenIfNeeded`: the returned value (or
thrown error message) together with the trace of HTTP calls issued. -/
structure RefreshOut where
  result : Except String (Option RedditTokenResult)
  calls : List HttpCall
deriving Repr, DecidableEq

/-- Embeds `refreshTokenIfNeeded` of the Reddit client.  `now` is
`Date.now()`; `net` is the token-endpoint response used if and when the
function reaches its `fetch`.  Note that a `Date` object is always truthy
in JavaScript, so the early-return condition
`credentials.tokenExpiresAt && tokenExpiresAt > fiveMinutesFromNow`
is false whenever `tokenExpiresAt` is null: a null expiry falls through
to the refresh call. -/
def refreshTokenIfNeeded (now : Int) (credentials : RedditCredentialsForRefresh)
    (net : TokenEndpoint) : RefreshOut :=
  if jsStrFalsy credentials.accessToken || jsStrFalsy credentials.refreshToken then
    { result := .ok none, calls := [] }
  else
    let fiveMinutesFromNow := now + 5 * 60 * 1000
    match credentials.tokenExpiresAt with
    | some t =>
      if t > fiveMinutesFromNow then
        { result := .ok (some { accessToken := credentials.accessToken.getD ""
                                expiresAt := t })
          calls := [] }
      else
        match net with
        | .ok tok expi =>
          { result := .ok (some { accessToken := tok, expiresAt := now + expi * 1000 })
            calls := [{ target := "reddit-token", viaLimiter := false }] }
        | .httpError body =>
          { result := .error ("Failed to refresh Reddit token: " ++ body)
            calls := [{ target := "reddit-token", viaLimiter := false }] }
    | none =>
      match net with
      | .ok tok expi =>
        { result := .ok (some { accessToken := tok, expiresAt := now + expi * 1000 })
          calls := [{ target := "reddit-token", viaLimiter := false }] }
      | .httpError body =>
        { result := .error ("Failed to refresh Reddit token: " ++ body)
          calls := [{ target := "reddit-token", viaLimiter := false }] }

/-- `SearchOptions` from the Reddit type definitions. -/
structure SearchOptions where
  keywords : String
  timeRange : String
  limit : Option Int := none
deriving Repr, DecidableEq

/-- The structured content of the single search request `searchPosts`
issues (the `URLSearchParams` it builds). -/
structure RedditSearchRequest where
  q : String
  sort : String
  t : String
  limit : Int
deriving Repr, DecidableEq

/-- Oracle for the one `fetch` of the Reddit search endpoint: a 2xx
response carrying the posts under `data.children[i].data`, or a non-2xx
response with its status code. -/
inductive SearchEndpoint where
  | ok (children : List RedditPost)
  | httpError (status : Int)
deriving Repr, DecidableEq

/-- Result of the embedded `searchPosts`. -/
structure SearchOut where
  result : Except String (List RedditPost)
  request : Option RedditSearchRequest
  calls : List HttpCall
deriving Repr, DecidableEq

/-- The keyword list built by `searchPosts`: comma-split, trimmed, empty
entries dropped.  (JavaScript `"".split(",")` is `[""]`, exactly as
`String.splitOn` behaves.) -/
def keywordListOf (keywords : String) : List String :=
  (((LLM.splitOnChar ',' keywords.toList).map String.mk).map LLM.jsTrim).filter
    (fun k => k.length > 0)

/-- Embeds `searchPosts` of the Reddit client. -/
def searchPosts (accessToken : String) (options : SearchOptions)
    (net : SearchEndpoint) : SearchOut :=
  let _ := accessToken
  let keywordList := keywordListOf options.keywords
  if keywordList.length = 0 then
    { result := .ok [], request := none, calls := [] }
  else
    let searchQuery := String.intercalate " OR " keywordList
    let req : RedditSearchRequest :=
      { q := searchQuery, sort := "relevance", t := options.timeRange
        limit := options.limit.getD 25 }
    match net with
    | .ok children =>
      { result := .ok children, request := some req
        calls := [{ target := "reddit-search", viaLimiter := false }] }
    | .httpError status =>
      { result := .error ("Failed to search posts: " ++ toString status)
        request := some req
        calls := [{ target := "reddit-search", viaLimiter := false }] }

/-- Oracle for the one `fetch` of the Reddit comment endpoint: a 2xx
response whose nested `json.data.things[0].data.name` may or may not be
present, or a non-2xx response whose body text is surfaced. -/
inductive CommentEndpoint where
  | ok (commentName : Option String)
  | httpError (body : String)
deriving Repr, DecidableEq

/-- Result of the embedded `postComment`. -/
structure CommentOut where
  result : Except String String
  calls : List HttpCall
deriving Repr, DecidableEq

/-- Embeds `postComment` of the Reddit client.  `commentData?.name ||
"unknown"` makes both a missing and an empty id collapse to the sentinel
`"unknown"`. -/
def postComment (accessToken : String) (postFullname : String) (text : String)
    (net : CommentEndpoint) : CommentOut :=
  let _ := accessToken
  let _ := postFullname
  let _ := text
  match net with
  | .ok commentName =>
    { result := .ok (jsOrStr commentName "unknown")
      calls := [{ target := "reddit-comment", viaLimiter := false }] }
  | .httpError body =>
    { result := .error ("Failed to post comment: " ++ body)
      calls := [{ target := "reddit-comment", viaLimiter := false }] }

/-- `StyleOptions` from the Reddit type definitions. -/
structure StyleOptions where
  noHashtags : Bool
  noEmojis : Bool
  noCapitalization : Bool
  badGrammar : Bool
deriving Repr, DecidableEq

/-- `GenerateReplyOptions` from the Reddit type definitions. -/
structure GenerateReplyOptions where
  apiKey : String
  model : String
  systemPrompt : String
  postTitle : String
  postBody : String
  postAuthor : String
  subreddit : String
  styleOptions : StyleOptions
deriving Repr, DecidableEq

/-- Oracle for the one `fetch` of the OpenRouter chat-completion
endpoint: a 2xx response carrying `choices[0].message.content` and
`choices[0].message.reasoning` (each possibly absent) plus its serialized
body (used only inside the empty-response error message), or a non-2xx
response whose body text is surfaced. -/
inductive ChatEndpoint where
  | ok (content : Option String) (reasoning : Option String) (raw : String)
  | httpError (body : String)
deriving Repr, DecidableEq

/-- The two chat messages `generateReply` sends. -/
structure ChatMessages where
  system : String
  user : String
deriving Repr, DecidableEq

/-- Result of the embedded `generateReply`. -/
structure GenOut where
  result : Except String String
  request : Option ChatMessages
  calls : List HttpCall
deriving Repr, DecidableEq

/-- The style-instruction clauses, in push order. -/
def styleInstructionList (so : StyleOptions) : List String :=
  (if so.noHashtags then ["Do not use hashtags."] else []) ++
  (if so.noEmojis then ["Do not use emojis."] else []) ++
  (if so.noCapitalization then ["Use all lowercase letters."] else []) ++
  (if so.badGrammar then ["Use casual grammar with minor typos."] else [])

/-- The joined system prompt of the Reddit `generateReply`
(`systemPrompt ||` default, fixed clauses, style clauses, output-only
instruction, joined with single spaces). -/
def redditFullSystemPrompt (systemPrompt : String) (so : StyleOptions) : String :=
  String.intercalate " "
    ([if systemPrompt.isEmpty then
        "You are a helpful Reddit user who provides thoughtful comments on posts."
      else systemPrompt,
      "Keep your reply concise and relevant (under 500 characters).",
      "Be genuine and add value to the discussion.",
      "Match the tone of the subreddit - some are casual, some are more serious."]
     ++ styleInstructionList so
     ++ ["IMPORTANT: Output ONLY the comment text itself. Do not include any reasoning, analysis, thinking, explanations, or meta-commentary. Just the raw comment text."])

/-- The post-content block of the user message: the quoted title, plus
the body (truncated to 500 characters with an ellipsis marker) when the
body is non-blank. -/
def redditPostContent (postTitle postBody : String) : String :=
  let base := "Title: \"" ++ postTitle ++ "\""
  if !(LLM.jsTrim postBody).isEmpty then
    let truncatedBody :=
      if postBody.length > 500 then LLM.jsSlice postBody 500 ++ "..." else postBody
    base ++ "\n\nPost content:\n" ++ truncatedBody
  else base

/-- The thinking-pattern openers of the Reddit `generateReply`. -/
def redditOpeners : List String :=
  ["The user wants", "I need to", "Let me", "Here\x27s my", "My reply",
   "I\x27ll write", "I should", "This post", "The post"]

/-- The residual meta-language markers the Reddit `generateReply` checks
with `includes`. -/
def redditMarkers : List String :=
  ["Constraints:", "The user wants", "Key details:"]

/-- Embeds `generateReply` of the Reddit client.  The emptiness check
(`if (!reply) throw`) happens on the trimmed raw content, before the
thinking-pattern cleanup; the cleanup applies only when the response has
no separate `reasoning` field; the final `slice(0, 500)` applies in every
returning path. -/
def generateReply (options : GenerateReplyOptions) (net : ChatEndpoint) : GenOut :=
  let fullSystemPrompt :=
    redditFullSystemPrompt options.systemPrompt options.styleOptions
  let userContent :=
    "Write a comment for this Reddit post in r/" ++ options.subreddit ++
    " by u/" ++ options.postAuthor ++ ":\n\n" ++
    redditPostContent options.postTitle options.postBody
  let req : ChatMessages := { system := fullSystemPrompt, user := userContent }
  let call : HttpCall := { target := "openrouter-chat", viaLimiter := false }
  match net with
  | .httpError body =>
    { result := .error ("OpenRouter error: " ++ body)
      request := some req, calls := [call] }
  | .ok content reasoning raw =>
    let reply := LLM.jsTrim (content.getD "")
    let hasReasoningField := !(jsStrFalsy reasoning)
    if reply.isEmpty then
      { result := .error ("Empty response from LLM. Response: " ++ raw)
        request := some req, calls := [call] }
    else
      let cleaned :=
        if hasReasoningField then reply
        else LLM.cleanupReply redditOpeners redditMarkers 600 reply
      { result := .ok (LLM.jsSlice cleaned 500)
        request := some req, calls := [call] }

end Reddit

end ViralKid

namespace ViralKid.RedditRun

open ViralKid.Reddit

/-- The `redditCredentials` row of an account, with the fields the
Reddit run route reads. -/
structure RedditDbCredentials where
  clientId : String
  clientSecret : String
  accessToken : Option String
  refreshToken : Option String
  tokenExpiresAt : Option Int
  username : Option String
deriving Repr, DecidableEq

/-- The `redditConfig` row of an account, with the fields the route
reads. -/
structure RedditDbConfig where
  keywords : Option String
  timeRange : Option String
  minimumUpvotes : Option Int
deriving Repr, DecidableEq

/-- The `openRouterCredentials` row of an account, with the fields the
route reads. -/
structure OpenRouterDbCredentials where
  apiKey : Option String
  selectedModel : Option String
  systemPrompt : Option String
  noHashtags : Bool
  noEmojis : Bool
  noCapitalization : Bool
  badGrammar : Bool
deriving Repr, DecidableEq

/-- A `redditInteraction` row: the account's Interaction Ledger entry
(`dbId` is the database row id; timestamps in epoch ms). -/
structure RedditInteraction where
  dbId : Nat
  postId : String
  subreddit : String
  postTitle : String
  postAuthor : String
  postUrl : String
  upvotes : Int
  commentCount : Int
  ourComment : String
  ourCommentId : String
  repliedAt : Int
  createdAt : Int
deriving Repr, DecidableEq

/-- The oracles of one Reddit pipeline run: `Date.now()`, the four
external HTTP endpoints, the outcome of the interaction-record database
block (upsert plus prune, which the route wraps in one try/catch), and
the row id the database would assign to a newly created interaction. -/
structure RedditEnv where
  now : Int
  tokenNet : TokenEndpoint
  searchNet : SearchEndpoint
  chatNet : ChatEndpoint
  commentNet : CommentEndpoint
  recordOutcome : Except String Unit
  freshId : Nat
deriving Repr, DecidableEq

/-- The JSON response of the Reddit run route: an error response with an
HTTP status, a normal no-action response (`replied: false`), or a success
response (`replied: true` with the target author, post title and posted
comment). -/
inductive RedditResponse where
  | errorResp (status : Nat) (message : String)
  | noAction (message : String)
  | success (repliedTo : String) (postTitle : String) (comment : String)
deriving Repr, DecidableEq

/-- One structured log row written through `createLog`. -/
structure LogEntry where
  level : String
  message : String
deriving Repr, DecidableEq

/-- Everything one embedded run produces: the JSON response, the
account's post-run Interaction Ledger, the log rows, the outbound HTTP
calls, and whether the refreshed token was written back. -/
structure RedditRunOut where
  response : RedditResponse
  ledger : List RedditInteraction
  logs : List LogEntry
  calls : List HttpCall
  credsUpdated : Bool
deriving Repr, DecidableEq

/-- The route's eligibility filter over fetched posts: not already in
the ledger, at least `minimumUpvotes || 10` upvotes (JavaScript `||`:
a configured 0 falls back to 10), not authored by the account itself
(`!==` against a possibly null username) and not by the deleted-user
sentinel. -/
def eligiblePosts (posts : List RedditPost) (repliedPostIds : List String)
    (minimumUpvotes : Option Int) (username : Option String) : List RedditPost :=
  posts.filter (fun post =>
    !(repliedPostIds.contains post.id) &&
    decide (ViralKid.jsOrInt minimumUpvotes 10 ≤ post.ups) &&
    (match username with
     | some u => post.author != u
     | none => true) &&
    (post.author != "[deleted]"))

/-- Descending-upvotes ordering used by `sort((a, b) => b.ups - a.ups)`. -/
def upsDesc (a b : RedditPost) : Prop := b.ups ≤ a.ups

instance : DecidableRel upsDesc :=
  fun a b => inferInstanceAs (Decidable (b.ups ≤ a.ups))

instance : IsTotal RedditPost upsDesc := ⟨fun a b => le_total b.ups a.ups⟩

instance : IsTrans RedditPost upsDesc :=
  ⟨fun _ _ _ hab hbc => le_trans hbc hab⟩

/-- The route's ranking: a stable sort of the eligible posts by upvotes
descending (the exact order of ties is unspecified by `Array.sort`; only
the maximality of the head matters below). -/
def sortByUpsDesc (l : List RedditPost) : List RedditPost :=
  List.insertionSort upsDesc l

/-- Descending-creation-time ordering used by the prune query
(`orderBy: { createdAt: "desc" }`). -/
def createdDesc (a b : RedditInteraction) : Prop := b.createdAt ≤ a.createdAt

instance : DecidableRel createdDesc :=
  fun a b => inferInstanceAs (Decidable (b.createdAt ≤ a.createdAt))

instance : IsTotal RedditInteraction createdDesc :=
  ⟨fun a b => le_total b.createdAt a.createdAt⟩

instance : IsTrans RedditInteraction createdDesc :=
  ⟨fun _ _ _ hab hbc => le_trans hbc hab⟩

/-- The route's `db.redditInteraction.upsert` keyed on
`(accountId, postId)`: update the comment fields of an existing row, or
create a new row (with `createdAt = now` and a fresh row id). -/
def upsertInteraction (ledger : List RedditInteraction) (post : RedditPost)
    (comment commentId : String) (freshId : Nat) (now : Int) :
    List RedditInteraction :=
  if ledger.any (fun r => r.postId == post.id) then
    ledger.map (fun r =>
      if r.postId == post.id then
        { r with ourComment := comment, ourCommentId := commentId
                 repliedAt := now }
      else r)
  else
    ledger ++ [{ dbId := freshId, postId := post.id
                 subreddit := post.subreddit, postTitle := post.title
                 postAuthor := post.author
                 postUrl := "https://reddit.com" ++ post.permalink
                 upvotes := post.ups, commentCount := post.num_comments
                 ourComment := comment, ourCommentId := commentId
                 repliedAt := now, createdAt := now }]

/-- The route's ledger prune: query the account's interactions ordered
by `createdAt` descending, skip 100, and delete the returned row ids. -/
def pruneInteractions (ledger : List RedditInteraction) :
    List RedditInteraction :=
  let sorted := List.insertionSort createdDesc ledger
  let oldIds := (sorted.drop 100).map (·.dbId)
  ledger.filter (fun r => !(oldIds.contains r.dbId))

/-- The pipeline body of the Reddit run route after the four
configuration guards have passed: refresh token, search, filter and
rank, generate, post, record (best-effort), respond. -/
def mainRedditPipeline (rc : RedditDbCredentials) (cfg : RedditDbConfig)
    (orc : OpenRouterDbCredentials) (ledger : List RedditInteraction)
    (env : RedditEnv) : RedditRunOut :=
  let log0 : List LogEntry := [⟨"info", "Starting Reddit pipeline"⟩]
  let refreshOut := refreshTokenIfNeeded env.now
    { clientId := rc.clientId, clientSecret := rc.clientSecret
      accessToken := rc.accessToken, refreshToken := rc.refreshToken
      tokenExpiresAt := rc.tokenExpiresAt } env.tokenNet
  match refreshOut.result with
  | .error e =>
    { response := .errorResp 401 "Failed to refresh token", ledger := ledger
      logs := log0 ++ [⟨"error", "Token refresh failed: " ++ e⟩]
      calls := refreshOut.calls, credsUpdated := false }
  | .ok none =>
    { response := .errorResp 401 "Failed to refresh token", ledger := ledger
      logs := log0 ++
        [⟨"error", "Token refresh failed: No refresh token available"⟩]
      calls := refreshOut.calls, credsUpdated := false }
  | .ok (some tokenResult) =>
    -- `tokenResult.expiresAt !== redditCredentials.tokenExpiresAt` is an
    -- object-identity test: it is false exactly on the no-network fast
    -- path (which returns the stored Date object itself).
    let credsUpdated := !refreshOut.calls.isEmpty
    let timeRange := ViralKid.jsOrStr cfg.timeRange "day"
    let searchOut := searchPosts tokenResult.accessToken
      { keywords := cfg.keywords.getD "", timeRange := timeRange
        limit := none } env.searchNet
    match searchOut.result with
    | .error e =>
      { response := .errorResp 500 "Failed to search posts", ledger := ledger
        logs := log0 ++ [⟨"error", "Failed to search posts: " ++ e⟩]
        calls := refreshOut.calls ++ searchOut.calls
        credsUpdated := credsUpdated }
    | .ok posts =>
      let logFound : LogEntry :=
        ⟨"info", "Found " ++ toString posts.length ++ " posts for keywords: \"" ++
          cfg.keywords.getD "" ++ "\" (" ++ timeRange ++ ")"⟩
      let repliedPostIds := ledger.map (·.postId)
      let eligible := eligiblePosts posts repliedPostIds cfg.minimumUpvotes
        rc.username
      if eligible.length = 0 then
        { response := .noAction "No eligible posts found", ledger := ledger
          logs := log0 ++ [logFound,
            ⟨"info", "No eligible posts found (all already replied or below threshold)"⟩]
          calls := refreshOut.calls ++ searchOut.calls
          credsUpdated := credsUpdated }
      else
        match (sortByUpsDesc eligible).head? with
        | none =>
          -- the source's defensive `if (!targetPost)` branch
          { response := .noAction "No eligible posts found", ledger := ledger
            logs := log0 ++ [logFound, ⟨"info", "No eligible posts after sorting"⟩]
            calls := refreshOut.calls ++ searchOut.calls
            credsUpdated := credsUpdated }
        | some targetPost =>
          let logSel : LogEntry :=
            ⟨"info", "Selected post: \"" ++ LLM.jsSlice targetPost.title 50 ++
              "...\" by u/" ++ targetPost.author ++ " (" ++
              toString targetPost.ups ++ " upvotes)"⟩
          let genOut := generateReply
            { apiKey := orc.apiKey.getD "", model := orc.selectedModel.getD ""
              systemPrompt := ViralKid.jsOrStr orc.systemPrompt ""
              postTitle := targetPost.title, postBody := targetPost.selftext
              postAuthor := targetPost.author, subreddit := targetPost.subreddit
              styleOptions :=
                { noHashtags := orc.noHashtags, noEmojis := orc.noEmojis
                  noCapitalization := orc.noCapitalization
                  badGrammar := orc.badGrammar } } env.chatNet
          match genOut.result with
          | .error e =>
            { response := .errorResp 500 "Failed to generate reply"
              ledger := ledger
              logs := log0 ++ [logFound, logSel,
                ⟨"error", "LLM generation failed: " ++ e⟩]
              calls := refreshOut.calls ++ searchOut.calls ++ genOut.calls
              credsUpdated := credsUpdated }
          | .ok generatedReply =>
            let logGen : LogEntry :=
              ⟨"info", "Generated reply: \"" ++ LLM.jsSlice generatedReply 50 ++
                "...\""⟩
            let commentOut := postComment tokenResult.accessToken
              targetPost.name generatedReply env.commentNet
            match commentOut.result with
            | .error e =>
              { response := .errorResp 500 "Failed to post comment"
                ledger := ledger
                logs := log0 ++ [logFound, logSel, logGen,
                  ⟨"error", "Failed to post comment: " ++ e⟩]
                calls := refreshOut.calls ++ searchOut.calls ++ genOut.calls ++
                  commentOut.calls
                credsUpdated := credsUpdated }
            | .ok commentId =>
              let logPosted : LogEntry :=
                ⟨"success", "Posted comment on \"" ++
                  LLM.jsSlice targetPost.title 30 ++ "...\""⟩
              let allCalls := refreshOut.calls ++ searchOut.calls ++
                genOut.calls ++ commentOut.calls
              match env.recordOutcome with
              | .ok _ =>
                { response := .success targetPost.author targetPost.title
                    generatedReply
                  ledger := pruneInteractions (upsertInteraction ledger
                    targetPost generatedReply commentId env.freshId env.now)
                  logs := log0 ++ [logFound, logSel, logGen, logPosted]
                  calls := allCalls, credsUpdated := credsUpdated }
              | .error _ =>
                -- caught: warning log only; the failed database block
                -- leaves the ledger unchanged in this model
                { response := .success targetPost.author targetPost.title
                    generatedReply
                  ledger := ledger
                  logs := log0 ++ [logFound, logSel, logGen, logPosted,
                    ⟨"warning", "Comment posted but failed to record in database"⟩]
                  calls := allCalls, credsUpdated := credsUpdated }

/-- The Reddit run route (`POST /api/reddit/run`) after account lookup:
the four configuration guards in source order, then the pipeline body. -/
def runRedditPipeline (redditCredentials : Option RedditDbCredentials)
    (redditConfig : Option RedditDbConfig)
    (openRouterCredentials : Option OpenRouterDbCredentials)
    (ledger : List RedditInteraction) (env : RedditEnv) : RedditRunOut :=
  match redditCredentials with
  | none =>
    { response := .errorResp 400 "Reddit OAuth not connected", ledger := ledger
      logs := [⟨"error", "Reddit OAuth not connected"⟩], calls := []
      credsUpdated := false }
  | some rc =>
    if ViralKid.jsStrFalsy rc.accessToken then
      { response := .errorResp 400 "Reddit OAuth not connected"
        ledger := ledger, logs := [⟨"error", "Reddit OAuth not connected"⟩]
        calls := [], credsUpdated := false }
    else
      match redditConfig with
      | none =>
        { response := .errorResp 400 "No keywords configured", ledger := ledger
          logs := [⟨"error", "No keywords configured"⟩], calls := []
          credsUpdated := false }
      | some cfg =>
        -- `!keywords || keywords.trim() === ""` collapses to one test on
        -- the trimmed `keywords ?? ""`
        if (LLM.jsTrim (cfg.keywords.getD "")).isEmpty then
          { response := .errorResp 400 "No keywords configured"
            ledger := ledger, logs := [⟨"error", "No keywords configured"⟩]
            calls := [], credsUpdated := false }
        else
          match openRouterCredentials with
          | none =>
            { response := .errorResp 400 "OpenRouter API key not configured"
              ledger := ledger
              logs := [⟨"error", "OpenRouter API key not configured"⟩]
              calls := [], credsUpdated := false }
          | some orc =>
            if ViralKid.jsStrFalsy orc.apiKey then
              { response := .errorResp 400 "OpenRouter API key not configured"
                ledger := ledger
                logs := [⟨"error", "OpenRouter API key not configured"⟩]
                calls := [], credsUpdated := false }
            else if ViralKid.jsStrFalsy orc.selectedModel then
              { response := .errorResp 400 "No LLM model selected"
                ledger := ledger, logs := [⟨"error", "No LLM model selected"⟩]
                calls := [], credsUpdated := false }
            else mainRedditPipeline rc cfg orc ledger env

/-- The eligibility predicate as the claim states it (the spec's words):
not already in the ledger, upvotes at least the CONFIGURED
minimum-engagement threshold (the stored `minimumUpvotes` when present,
the default 10 only when none is configured), and not authored by the
account or the deleted-user sentinel. -/
def claimEligible (repliedPostIds : List String) (minimumUpvotes : Option Int)
    (username : Option String) (post : RedditPost) : Bool :=
  !(repliedPostIds.contains post.id) &&
  decide (minimumUpvotes.getD 10 ≤ post.ups) &&
  (match username with
   | some u => post.author != u
   | none => true) &&
  (post.author != "[deleted]")

theorem sortByUpsDesc_head_max {l : List RedditPost} {p : RedditPost}
    (h : (sortByUpsDesc l).head? = some p) :
    p ∈ l ∧ ∀ q ∈ l, q.ups ≤ p.ups := by
  have hperm := List.perm_insertionSort upsDesc l
  have hsorted := List.sorted_insertionSort upsDesc l
  unfold sortByUpsDesc at h
  match hs : List.insertionSort upsDesc l with
  | [] => rw [hs] at h; simp at h
  | p' :: rest =>
    rw [hs] at h
    simp only [List.head?_cons, Option.some.injEq] at h
    subst h
    rw [hs] at hperm hsorted
    refine ⟨hperm.subset (List.mem_cons_self _ _), ?_⟩
    intro q hq
    have hq' : q ∈ p' :: rest := hperm.symm.subset hq
    rcases List.mem_cons.mp hq' with rfl | hmem
    · exact le_refl _
    · exact (List.sorted_cons.mp hsorted).1 q hmem

theorem contains_iff_mem {α : Type} [BEq α] [LawfulBEq α] (L : List α) (x : α) :
    L.contains x = true ↔ x ∈ L := List.elem_iff

theorem pruneInteractions_length_le (l : List RedditInteraction) :
    (pruneInteractions l).length ≤ 100 := by
  unfold pruneInteractions
  have hperm : (List.insertionSort createdDesc l).Perm l :=
    List.perm_insertionSort createdDesc l
  set p : RedditInteraction → Bool := fun r =>
    !((((List.insertionSort createdDesc l).drop 100).map (·.dbId)).contains
      r.dbId) with hp
  have hlen : (l.filter p).length =
      ((List.insertionSort createdDesc l).filter p).length :=
    (List.Perm.filter p hperm).length_eq.symm
  rw [hlen]
  have hsplit : List.insertionSort createdDesc l =
      (List.insertionSort createdDesc l).take 100 ++
      (List.insertionSort createdDesc l).drop 100 :=
    (List.take_append_drop 100 _).symm
  conv_lhs => rw [hsplit]
  rw [List.filter_append]
  have hdrop : ((List.insertionSort createdDesc l).drop 100).filter p = [] := by
    rw [List.filter_eq_nil_iff]
    intro r hr
    simp only [hp, Bool.not_eq_true']
    intro hfalse
    have hmem : r.dbId ∈ (((List.insertionSort createdDesc l).drop 100).map
        (·.dbId)) := List.mem_map.mpr ⟨r, hr, rfl⟩
    have htrue := (contains_iff_mem _ _).mpr hmem
    rw [hfalse] at htrue
    exact Bool.noConfusion htrue
  rw [hdrop, List.append_nil]
  calc (((List.insertionSort createdDesc l).take 100).filter p).length
      ≤ ((List.insertionSort createdDesc l).take 100).length :=
        List.length_filter_le _ _
    _ ≤ 100 := List.length_take_le _ _

theorem pruneInteractions_recency (l : List RedditInteraction)
    (hnodup : (l.map (·.dbId)).Nodup) :
    ∀ r ∈ pruneInteractions l, ∀ d ∈ l,
      d.dbId ∉ (pruneInteractions l).map (·.dbId) →
      d.createdAt ≤ r.createdAt := by
  intro r hr d hd hdel
  have hperm : (List.insertionSort createdDesc l).Perm l :=
    List.perm_insertionSort createdDesc l
  have hsorted := List.sorted_insertionSort createdDesc l
  unfold pruneInteractions at hr hdel
  simp only [List.mem_filter] at hr
  obtain ⟨hrl, hrkeep⟩ := hr
  -- d's id is among the pruned ids, else d would be kept
  have hdid : d.dbId ∈ (((List.insertionSort createdDesc l).drop 100).map
      (·.dbId)) := by
    by_contra hno
    apply hdel
    simp only [List.mem_map]
    refine ⟨d, ?_, rfl⟩
    simp only [List.mem_filter]
    refine ⟨hd, ?_⟩
    simp only [Bool.not_eq_true']
    cases hc : (((List.insertionSort createdDesc l).drop 100).map
        (·.dbId)).contains d.dbId with
    | false => rfl
    | true => exact absurd ((contains_iff_mem _ _).mp hc) hno
  -- hence d itself occurs in the dropped suffix, by id uniqueness
  obtain ⟨d', hd', hdd'⟩ := List.mem_map.mp hdid
  have hd'l : d' ∈ l := hperm.subset (List.mem_of_mem_drop hd')
  have hdeq : d' = d := List.inj_on_of_nodup_map hnodup hd'l hd hdd'
  subst hdeq
  -- r is kept, hence in the first 100 of the sorted list
  have hrs : r ∈ List.insertionSort createdDesc l := hperm.symm.subset hrl
  have hrtake : r ∈ (List.insertionSort createdDesc l).take 100 := by
    have := (List.take_append_drop 100 (List.insertionSort createdDesc l)).symm
    rw [this] at hrs
    rcases List.mem_append.mp hrs with htake | hdrop
    · exact htake
    · exfalso
      have hmem : r.dbId ∈ (((List.insertionSort createdDesc l).drop 100).map
          (·.dbId)) := by
        simp only [List.mem_map]
        exact ⟨r, hdrop, rfl⟩
      simp only [Bool.not_eq_true'] at hrkeep
      have htrue := (contains_iff_mem _ _).mpr hmem
      rw [hrkeep] at htrue
      exact Bool.noConfusion htrue
  -- sortedness relates the kept and the dropped element
  have hpair : List.Pairwise createdDesc
      ((List.insertionSort createdDesc l).take 100 ++
        (List.insertionSort createdDesc l).drop 100) := by
    rw [List.take_append_drop]
    exact hsorted
  exact (List.pairwise_append.mp hpair).2.2 r hrtake d' hd'

/-- Every call in the list was issued without passing a rate limiter. -/
def allUnlimited (l : List ViralKid.HttpCall) : Prop :=
  ∀ call ∈ l, call.viaLimiter = false

theorem allUnlimited_nil : allUnlimited [] := by
  intro call hc
  exact absurd hc (List.not_mem_nil call)

theorem allUnlimited_append {a b : List ViralKid.HttpCall}
    (ha : allUnlimited a) (hb : allUnlimited b) : allUnlimited (a ++ b) := by
  intro call hc
  rcases List.mem_append.mp hc with h | h
  · exact ha call h
  · exact hb call h

theorem refreshTokenIfNeeded_unlimited (now : Int)
    (c : Reddit.RedditCredentialsForRefresh) (net : Reddit.TokenEndpoint) :
    allUnlimited (Reddit.refreshTokenIfNeeded now c net).calls := by
  intro call hc
  unfold Reddit.refreshTokenIfNeeded at hc
  dsimp only at hc
  repeat any_goals split at hc
  all_goals simp_all

theorem searchPosts_unlimited (accessToken : String)
    (options : Reddit.SearchOptions) (net : Reddit.SearchEndpoint) :
    allUnlimited (Reddit.searchPosts accessToken options net).calls := by
  intro call hc
  unfold Reddit.searchPosts at hc
  dsimp only at hc
  split at hc
  · simp at hc
  · split at hc <;> simp_all

theorem generateReply_unlimited (options : Reddit.GenerateReplyOptions)
    (net : Reddit.ChatEndpoint) :
    allUnlimited (Reddit.generateReply options net).calls := by
  intro call hc
  unfold Reddit.generateReply at hc
  dsimp only at hc
  split at hc
  · simp_all
  · split at hc <;> simp_all

theorem postComment_unlimited (accessToken postFullname text : String)
    (net : Reddit.CommentEndpoint) :
    allUnlimited (Reddit.postComment accessToken postFullname text net).calls := by
  intro call hc
  unfold Reddit.postComment at hc
  split at hc <;> simp_all

theorem mainRedditPipeline_unlimited (rc : RedditDbCredentials)
    (cfg : RedditDbConfig) (orc : OpenRouterDbCredentials)
    (ledger : List RedditInteraction) (env : RedditEnv) :
    allUnlimited (mainRedditPipeline rc cfg orc ledger env).calls := by
  unfold mainRedditPipeline
  dsimp only
  split
  · exact refreshTokenIfNeeded_unlimited _ _ _
  · exact refreshTokenIfNeeded_unlimited _ _ _
  · split
    · exact allUnlimited_append (refreshTokenIfNeeded_unlimited _ _ _)
        (searchPosts_unlimited _ _ _)
    · split
      · exact allUnlimited_append (refreshTokenIfNeeded_unlimited _ _ _)
          (searchPosts_unlimited _ _ _)
      · split
        · exact allUnlimited_append (refreshTokenIfNeeded_unlimited _ _ _)
            (searchPosts_unlimited _ _ _)
        · split
          · exact allUnlimited_append (allUnlimited_append
              (refreshTokenIfNeeded_unlimited _ _ _)
              (searchPosts_unlimited _ _ _)) (generateReply_unlimited _ _)
          · split
            · exact allUnlimited_append (allUnlimited_append (allUnlimited_append
                (refreshTokenIfNeeded_unlimited _ _ _)
                (searchPosts_unlimited _ _ _)) (generateReply_unlimited _ _))
                (postComment_unlimited _ _ _ _)
            · split <;>
                exact allUnlimited_append (allUnlimited_append (allUnlimited_append
                  (refreshTokenIfNeeded_unlimited _ _ _)
                  (searchPosts_unlimited _ _ _)) (generateReply_unlimited _ _))
                  (postComment_unlimited _ _ _ _)

theorem runRedditPipeline_unlimited (rcs : Option RedditDbCredentials)
    (cfg : Option RedditDbConfig) (orc : Option OpenRouterDbCredentials)
    (ledger : List RedditInteraction) (env : RedditEnv) :
    allUnlimited (runRedditPipeline rcs cfg orc ledger env).calls := by
  unfold runRedditPipeline
  cases rcs with
  | none => exact allUnlimited_nil
  | some rc =>
    dsimp only
    split
    · exact allUnlimited_nil
    · cases cfg with
      | none => exact allUnlimited_nil
      | some cfgv =>
        dsimp only
        split
        · exact allUnlimited_nil
        · cases orc with
          | none => exact allUnlimited_nil
          | some orcv =>
            dsimp only
            split
            · exact allUnlimited_nil
            · split
              · exact allUnlimited_nil
              · exact mainRedditPipeline_unlimited _ _ _ _ _

theorem mainRedditPipeline_record_error (rc : RedditDbCredentials)
    (cfg : RedditDbConfig) (orc : OpenRouterDbCredentials)
    (ledger : List RedditInteraction) (env : RedditEnv) (a t c e : String)
    (h : (mainRedditPipeline rc cfg orc ledger env).response = .success a t c) :
    (mainRedditPipeline rc cfg orc ledger
      { env with recordOutcome := .error e }).response = .success a t c ∧
    (⟨"warning", "Comment posted but failed to record in database"⟩ : LogEntry) ∈
      (mainRedditPipeline rc cfg orc ledger
        { env with recordOutcome := .error e }).logs ∧
    ∀ lg ∈ (mainRedditPipeline rc cfg orc ledger
        { env with recordOutcome := .error e }).logs, lg.level ≠ "error" := by
  unfold mainRedditPipeline at h ⊢
  dsimp only at h ⊢
  split at h
  · exact absurd h (by simp)
  · exact absurd h (by simp)
  · split at h
    · exact absurd h (by simp)
    · split at h
      · exact absurd h (by simp)
      · split at h
        · exact absurd h (by simp)
        · split at h
          · exact absurd h (by simp)
          · split at h
            · exact absurd h (by simp)
            · split at h <;> simp_all

/-- A run that produced a success response necessarily passed all four
configuration guards and delegated to the pipeline body, for any
oracles. -/
theorem runRedditPipeline_success_delegates (rcs : Option RedditDbCredentials)
    (cfg : Option RedditDbConfig) (orc : Option OpenRouterDbCredentials)
    (ledger : List RedditInteraction) (env : RedditEnv) (a t c : String)
    (h : (runRedditPipeline rcs cfg orc ledger env).response = .success a t c) :
    ∃ rc cfgv orcv, rcs = some rc ∧ cfg = some cfgv ∧ orc = some orcv ∧
      ∀ env2 : RedditEnv, runRedditPipeline rcs cfg orc ledger env2 =
        mainRedditPipeline rc cfgv orcv ledger env2 := by
  unfold runRedditPipeline at h
  cases rcs with
  | none => simp at h
  | some rc =>
    dsimp only at h
    by_cases h1 : ViralKid.jsStrFalsy rc.accessToken = true
    · rw [if_pos h1] at h; simp at h
    · rw [if_neg h1] at h
      cases cfg with
      | none => simp at h
      | some cfgv =>
        dsimp only at h
        by_cases h2 : (ViralKid.LLM.jsTrim (cfgv.keywords.getD "")).isEmpty = true
        · rw [if_pos h2] at h; simp at h
        · rw [if_neg h2] at h
          cases orc with
          | none => simp at h
          | some orcv =>
            dsimp only at h
            by_cases h3 : ViralKid.jsStrFalsy orcv.apiKey = true
            · rw [if_pos h3] at h; simp at h
            · rw [if_neg h3] at h
              by_cases h4 : ViralKid.jsStrFalsy orcv.selectedModel = true
              · rw [if_pos h4] at h; simp at h
              · rw [if_neg h4] at h
                refine ⟨rc, cfgv, orcv, rfl, rfl, rfl, ?_⟩
                intro env2
                unfold runRedditPipeline
                dsimp only
                rw [if_neg h1, if_neg h2, if_neg h3, if_neg h4]

/-- A success response exposes the whole successful branch: the token
that was obtained, the posts the search returned, the selected post (a
maximal element of the eligible posts), the generated reply, and — when
the record step succeeds — the pruned, upserted ledger. -/
theorem mainRedditPipeline_success_anatomy (rc : RedditDbCredentials)
    (cfg : RedditDbConfig) (orc : OpenRouterDbCredentials)
    (ledger : List RedditInteraction) (env : RedditEnv) (a t c : String)
    (h : (mainRedditPipeline rc cfg orc ledger env).response = .success a t c) :
    ∃ tr posts p gen cid,
      (Reddit.refreshTokenIfNeeded env.now
        { clientId := rc.clientId, clientSecret := rc.clientSecret
          accessToken := rc.accessToken, refreshToken := rc.refreshToken
          tokenExpiresAt := rc.tokenExpiresAt } env.tokenNet).result =
        .ok (some tr) ∧
      (Reddit.searchPosts tr.accessToken
        { keywords := cfg.keywords.getD ""
          timeRange := ViralKid.jsOrStr cfg.timeRange "day", limit := none }
        env.searchNet).result = .ok posts ∧
      p ∈ eligiblePosts posts (ledger.map (·.postId)) cfg.minimumUpvotes
        rc.username ∧
      (∀ q ∈ eligiblePosts posts (ledger.map (·.postId)) cfg.minimumUpvotes
        rc.username, q.ups ≤ p.ups) ∧
      a = p.author ∧ t = p.title ∧ c = gen ∧
      (env.recordOutcome = .ok () →
        (mainRedditPipeline rc cfg orc ledger env).ledger =
          pruneInteractions (upsertInteraction ledger p gen cid env.freshId
            env.now)) := by
  unfold mainRedditPipeline at h
  dsimp only at h
  split at h
  · exact absurd h (by simp)
  · exact absurd h (by simp)
  · rename_i tr htok
    split at h
    · exact absurd h (by simp)
    · rename_i posts hsearch
      split at h
      · exact absurd h (by simp)
      · rename_i hnonzero
        split at h
        · exact absurd h (by simp)
        · rename_i p hhead
          split at h
          · exact absurd h (by simp)
          · rename_i gen hgen
            split at h
            · exact absurd h (by simp)
            · rename_i cid hcomment
              have hsel := sortByUpsDesc_head_max hhead
              split at h
              · rename_i u hok
                dsimp only at h
                injection h with h1 h2 h3
                refine ⟨tr, posts, p, gen, cid, htok, hsearch, hsel.1, hsel.2,
                  h1.symm, h2.symm, h3.symm, ?_⟩
                intro _
                unfold mainRedditPipeline
                dsimp only
                rw [htok]
                dsimp only
                rw [hsearch]
                dsimp only
                rw [if_neg hnonzero, hhead]
                dsimp only
                rw [hgen]
                dsimp only
                rw [hcomment]
                dsimp only
                rw [hok]
              · rename_i e herr
                dsimp only at h
                injection h with h1 h2 h3
                refine ⟨tr, posts, p, gen, cid, htok, hsearch, hsel.1, hsel.2,
                  h1.symm, h2.symm, h3.symm, ?_⟩
                intro hok
                rw [herr] at hok
                exact absurd hok (by simp)

/-- A run that reaches the selection step with zero eligible posts ends
as the normal no-action outcome. -/
theorem mainRedditPipeline_no_eligible (rc : RedditDbCredentials)
    (cfg : RedditDbConfig) (orc : OpenRouterDbCredentials)
    (ledger : List RedditInteraction) (env : RedditEnv)
    (tr : Reddit.RedditTokenResult) (posts : List Reddit.RedditPost)
    (htok : (Reddit.refreshTokenIfNeeded env.now
      { clientId := rc.clientId, clientSecret := rc.clientSecret
        accessToken := rc.accessToken, refreshToken := rc.refreshToken
        tokenExpiresAt := rc.tokenExpiresAt } env.tokenNet).result =
      .ok (some tr))
    (hsearch : (Reddit.searchPosts tr.accessToken
      { keywords := cfg.keywords.getD ""
        timeRange := ViralKid.jsOrStr cfg.timeRange "day", limit := none }
      env.searchNet).result = .ok posts)
    (helig : eligiblePosts posts (ledger.map (·.postId)) cfg.minimumUpvotes
      rc.username = []) :
    (mainRedditPipeline rc cfg orc ledger env).response =
      .noAction "No eligible posts found" := by
  unfold mainRedditPipeline
  dsimp only
  rw [htok]
  dsimp only
  rw [hsearch]
  dsimp only
  rw [helig]
  simp

theorem upsertInteraction_ids (ledger : List RedditInteraction)
    (p : Reddit.RedditPost) (comment cid : String) (fid : Nat) (now : Int) :
    (upsertInteraction ledger p comment cid fid now).map (·.dbId) =
      ledger.map (·.dbId) ∨
    (upsertInteraction ledger p comment cid fid now).map (·.dbId) =
      ledger.map (·.dbId) ++ [fid] := by
  unfold upsertInteraction
  split
  · left
    rw [List.map_map]
    apply List.map_congr_left
    intro r _
    dsimp only [Function.comp]
    split <;> rfl
  · right
    simp

theorem upsertInteraction_nodup (ledger : List RedditInteraction)
    (p : Reddit.RedditPost) (comment cid : String) (fid : Nat) (now : Int)
    (hnodup : (ledger.map (·.dbId)).Nodup)
    (hfresh : ∀ r ∈ ledger, r.dbId ≠ fid) :
    ((upsertInteraction ledger p comment cid fid now).map (·.dbId)).Nodup := by
  rcases upsertInteraction_ids ledger p comment cid fid now with h | h <;> rw [h]
  · exact hnodup
  · rw [List.nodup_append]
    refine ⟨hnodup, List.nodup_singleton fid, ?_⟩
    intro x hx
    obtain ⟨r, hr, rfl⟩ := List.mem_map.mp hx
    simp only [List.mem_singleton]
    exact hfresh r hr

theorem upsertInteraction_covers {ledger : List RedditInteraction}
    {d : RedditInteraction} (hd : d ∈ ledger) (p : Reddit.RedditPost)
    (comment cid : String) (fid : Nat) (now : Int) :
    ∃ d2 ∈ upsertInteraction ledger p comment cid fid now,
      d2.dbId = d.dbId ∧ d2.createdAt = d.createdAt := by
  unfold upsertInteraction
  split
  · refine ⟨_, List.mem_map.mpr ⟨d, hd, rfl⟩, ?_, ?_⟩ <;>
      (dsimp only; split <;> rfl)
  · exact ⟨d, List.mem_append_left _ hd, rfl, rfl⟩

end ViralKid.RedditRun

namespace ViralKid.TwitterReplies

open ViralKid.LLM

/-- `ReplyOptions` of the Twitter replies module. -/
structure ReplyOptions where
  text : String
  inReplyToTweetId : String
  autoPopulateReplyMetadata : Option Bool := none
  excludeReplyUserIds : Option (List String) := none
deriving Repr, DecidableEq

/-- The `result.data` of a successful `twitterRW.tweet` call. -/
structure TweetData where
  id : String
  text : String
deriving Repr, DecidableEq

/-- A JavaScript value thrown by the underlying client: an `Error` with
a message, or any other thrown value. -/
inductive JsError where
  | jsError (message : String)
  | other
deriving Repr, DecidableEq

/-- `ReplyResponse`: the discriminated union of `ReplyResult`
(`success: true` with the new tweet) and `ReplyError` (`success: false`
with an error text and a code). -/
inductive ReplyResponse where
  | success (id : String) (text : String)
  | failure (error : String) (code : String)
deriving Repr, DecidableEq

/-- `response.success` as a Bool. -/
def isSuccess : ReplyResponse → Bool
  | .success _ _ => true
  | .failure _ _ => false

/-- Embeds `handleReplyError`: normalizes a thrown value into a
`ReplyError`, classifying `Error` messages by `includes` checks in
source order. -/
def handleReplyError (error : JsError) : ReplyResponse :=
  match error with
  | .jsError message =>
    if containsSub message "Rate limit" then
      .failure "Rate limit exceeded. Please wait before sending more replies."
        "RATE_LIMIT"
    else if containsSub message "duplicate" then
      .failure "Duplicate reply detected. This content was already posted."
        "DUPLICATE"
    else if containsSub message "not found" || containsSub message "404" then
      .failure "The tweet you are trying to reply to was not found or was deleted."
        "NOT_FOUND"
    else if containsSub message "unauthorized" || containsSub message "401" then
      .failure "Authentication failed. Please check your Twitter API credentials."
        "UNAUTHORIZED"
    else if containsSub message "forbidden" || containsSub message "403" then
      .failure "You do not have permission to reply to this tweet."
        "FORBIDDEN"
    else .failure message "UNKNOWN"
  | .other =>
    .failure "An unexpected error occurred while posting the reply." "UNKNOWN"

/-- Embeds `replyToTweet`: one `twitterRW.tweet` call whose outcome is
the oracle `net`; a throw is caught and normalized, so the function
always returns a `ReplyResponse`. -/
def replyToTweet (options : ReplyOptions) (net : Except JsError TweetData) :
    ReplyResponse :=
  let _ := options
  match net with
  | .ok result => .success result.id result.text
  | .error e => handleReplyError e

/-- `BatchReplyItem` of the Twitter replies module. -/
structure BatchReplyItem where
  id : String
  tweetId : String
  text : String
deriving Repr, DecidableEq

/-- One entry of `BatchReplyResult.results`. -/
structure BatchItemResult where
  id : String
  tweetId : String
  response : ReplyResponse
deriving Repr, DecidableEq

/-- `BatchReplyResult` of the Twitter replies module. -/
structure BatchReplyResult where
  total : Nat
  successful : Nat
  failed : Nat
  results : List BatchItemResult
deriving Repr, DecidableEq

/-- The loop body of `batchReply`: one `replyToTweet` per item, in input
order, never aborting; the oracle is indexed by the call sequence
number. -/
def batchReplyAux (net : Nat → Except JsError TweetData) :
    List BatchReplyItem → Nat → List BatchItemResult
  | [], _ => []
  | item :: rest, i =>
    let response := replyToTweet
      { text := item.text, inReplyToTweetId := item.tweetId } (net i)
    ⟨item.id, item.tweetId, response⟩ :: batchReplyAux net rest (i + 1)

/-- Embeds `batchReply` (the inter-item delay does not affect the
result). -/
def batchReply (items : List BatchReplyItem)
    (net : Nat → Except JsError TweetData) : BatchReplyResult :=
  let results := batchReplyAux net items 0
  { total := items.length
    successful := (results.filter (fun r => isSuccess r.response)).length
    failed := (results.filter (fun r => !isSuccess r.response)).length
    results := results }

/-- The loop body of `createReplyThread`: reply, push the response, on
success chain to the new reply id, on failure break. -/
def createReplyThreadAux (net : Nat → Except JsError TweetData) :
    List String → String → Nat → List ReplyResponse
  | [], _, _ => []
  | text :: rest, currentReplyToId, i =>
    let response := replyToTweet
      { text := text, inReplyToTweetId := currentReplyToId } (net i)
    match response with
    | .success newId s =>
      ReplyResponse.success newId s :: createReplyThreadAux net rest newId (i + 1)
    | .failure msg code => [ReplyResponse.failure msg code]

/-- Embeds `createReplyThread`. -/
def createReplyThread (initialTweetId : String) (texts : List String)
    (net : Nat → Except JsError TweetData) : List ReplyResponse :=
  createReplyThreadAux net texts initialTweetId 0

theorem batchReplyAux_length (net : Nat → Except JsError TweetData)
    (items : List BatchReplyItem) : ∀ i,
    (batchReplyAux net items i).length = items.length := by
  induction items with
  | nil => intro i; rfl
  | cons item rest ih =>
    intro i
    simp [batchReplyAux, ih (i + 1)]

theorem batchReplyAux_keys (net : Nat → Except JsError TweetData)
    (items : List BatchReplyItem) : ∀ i,
    (batchReplyAux net items i).map (fun r => (r.id, r.tweetId)) =
      items.map (fun it => (it.id, it.tweetId)) := by
  induction items with
  | nil => intro i; rfl
  | cons item rest ih =>
    intro i
    simp [batchReplyAux, ih (i + 1)]

theorem filter_partition_length {α : Type} (p : α → Bool) (l : List α) :
    (l.filter p).length + (l.filter (fun x => !p x)).length = l.length := by
  induction l with
  | nil => rfl
  | cons a rest ih =>
    by_cases h : p a = true <;> simp [List.filter, h, ← ih] <;> omega

theorem createReplyThreadAux_ne_nil (net : Nat → Except JsError TweetData)
    (texts : List String) (cur : String) (i : Nat) (h : texts ≠ []) :
    createReplyThreadAux net texts cur i ≠ [] := by
  cases texts with
  | nil => exact absurd rfl h
  | cons text rest =>
    unfold createReplyThreadAux
    dsimp only
    split <;> simp

theorem createReplyThreadAux_spec (net : Nat → Except JsError TweetData)
    (texts : List String) : ∀ (cur : String) (i : Nat),
    (createReplyThreadAux net texts cur i).length ≤ texts.length ∧
    (∀ r ∈ (createReplyThreadAux net texts cur i).dropLast,
      isSuccess r = true) ∧
    ((createReplyThreadAux net texts cur i).length < texts.length →
      ∃ last, (createReplyThreadAux net texts cur i).getLast? = some last ∧
        isSuccess last = false) := by
  induction texts with
  | nil =>
    intro cur i
    refine ⟨le_refl 0, ?_, ?_⟩
    · intro r hr
      simp [createReplyThreadAux] at hr
    · intro hlen
      simp [createReplyThreadAux] at hlen
  | cons text rest ih =>
    intro cur i
    unfold createReplyThreadAux
    dsimp only
    cases hresp : replyToTweet
        { text := text, inReplyToTweetId := cur } (net i) with
    | success newId s =>
      dsimp only
      obtain ⟨ihlen, ihdrop, ihlast⟩ := ih newId (i + 1)
      refine ⟨?_, ?_, ?_⟩
      · simp only [List.length_cons]
        omega
      · intro r hr
        cases htail : createReplyThreadAux net rest newId (i + 1) with
        | nil =>
          rw [htail] at hr
          simp at hr
        | cons t ts =>
          rw [htail] at hr
          rw [List.dropLast_cons₂] at hr
          rcases List.mem_cons.mp hr with rfl | hmem
          · rfl
          · rw [htail] at ihdrop
            exact ihdrop r hmem
      · intro hlen
        simp only [List.length_cons] at hlen
        have hlt : (createReplyThreadAux net rest newId (i + 1)).length <
            rest.length := by omega
        obtain ⟨last, hl, hf⟩ := ihlast hlt
        have hne : createReplyThreadAux net rest newId (i + 1) ≠ [] := by
          intro h0
          rw [h0] at hl
          simp at hl
        cases htail : createReplyThreadAux net rest newId (i + 1) with
        | nil => exact absurd htail hne
        | cons t ts =>
          refine ⟨last, ?_, hf⟩
          rw [htail] at hl
          rw [List.getLast?_cons_cons]
          exact hl
    | failure msg code =>
      dsimp only
      refine ⟨?_, ?_, ?_⟩
      · simp
      · intro r hr
        simp at hr
      · intro _
        exact ⟨.failure msg code, by simp, rfl⟩

end ViralKid.TwitterReplies

namespace ViralKid.TwitterRun

open ViralKid.RedditRun (OpenRouterDbCredentials LogEntry)

/-- The `twitterCredentials` row of an account, with the fields the
Twitter run route reads. -/
structure TwitterDbCredentials where
  clientId : String
  clientSecret : String
  accessToken : Option String
  refreshToken : Option String
  tokenExpiresAt : Option Int
  rapidApiKey : Option String
deriving Repr, DecidableEq

/-- The `twitterConfig` row of an account, with the fields the route
reads.  Note the route reads `searchTerm` with `||` (empty falls back)
but `minimumLikesCount` with `??` (only null falls back: a configured 0
is honoured). -/
structure TwitterDbConfig where
  searchTerm : Option String
  minimumLikesCount : Option Int
deriving Repr, DecidableEq

/-- A `tweetInteraction` row: the account's Twitter Interaction Ledger
entry.  `ourReply`/`ourReplyId`/`repliedAt` are null for unreplied
placeholder rows. -/
structure TweetInteraction where
  dbId : Nat
  tweetId : String
  userTweet : String
  username : String
  views : Int
  hearts : Int
  replies : Int
  ourReply : Option String
  ourReplyId : Option String
  repliedAt : Option Int
  createdAt : Int
deriving Repr, DecidableEq

/-- The flattened fields of one RapidAPI `TweetResult` (the nested
`core.user_results.result.legacy.screen_name` path is collapsed; the
`views.count` string is modelled after `parseInt`). -/
structure TweetResult where
  typename : String
  rest_id : String
  screen_name : String
  views : Option Int
  full_text : String
  favorite_count : Int
  reply_count : Int
deriving Repr, DecidableEq

/-- One RapidAPI `TimelineEntry`; the optional chain
`content.itemContent?.tweet_results?.result` is collapsed into one
`Option`. -/
structure TimelineEntry where
  entryId : String
  result : Option TweetResult
deriving Repr, DecidableEq

/-- One group of the RapidAPI response's `entries` array. -/
structure TimelineGroup where
  entries : List TimelineEntry
deriving Repr, DecidableEq

/-- The RapidAPI search response body. -/
structure RapidAPIResponse where
  entries : List TimelineGroup
deriving Repr, DecidableEq

/-- A `ParsedTweet` of the Twitter run route. -/
structure ParsedTweet where
  tweetId : String
  userTweet : String
  username : String
  views : Int
  hearts : Int
  replies : Int
deriving Repr, DecidableEq

/-- Oracle for the RapidAPI search `fetch`: a 2xx response body, or a
non-2xx status (an abort/timeout surfaces as a failure the same way). -/
inductive RapidEndpoint where
  | ok (data : RapidAPIResponse)
  | httpError (status : Int)
deriving Repr, DecidableEq

/-- Oracle for the route-local token refresh: the
`client.refreshOAuth2Token` call either yields new tokens or throws
(the route catches the throw and returns null). -/
inductive TwTokenEndpoint where
  | ok (accessToken refreshToken : String) (expiresIn : Int)
  | jsFail
deriving Repr, DecidableEq

/-- The oracles of one Twitter pipeline run. -/
structure TwitterEnv where
  now : Int
  tokenNet : TwTokenEndpoint
  rapidNet : RapidEndpoint
  chatNet : ViralKid.Reddit.ChatEndpoint
  postNet : Except String String
  recordOutcome : Except String Unit
  freshId : Nat
deriving Repr, DecidableEq

/-- The JSON response of the Twitter run route. -/
inductive TwitterResponse where
  | errorResp (status : Nat) (message : String)
  | noReply (message : String)
  | success (repliedTo : String) (tweetId : String) (replyId : String)
      (reply : String)
deriving Repr, DecidableEq

/-- Everything one embedded Twitter run produces. -/
structure TwitterRunOut where
  response : TwitterResponse
  ledger : List TweetInteraction
  logs : List LogEntry
deriving Repr, DecidableEq

/-- Embeds the route-local `refreshTokenIfNeeded` of the Twitter run
route: null on missing tokens, the existing token while it is more than
5 minutes from expiry, otherwise a refresh whose thrown error is caught
and turned into null. -/
def twRefreshTokenIfNeeded (now : Int) (accessToken refreshToken : Option String)
    (tokenExpiresAt : Option Int) (net : TwTokenEndpoint) : Option String :=
  if ViralKid.jsStrFalsy accessToken || ViralKid.jsStrFalsy refreshToken then
    none
  else
    match tokenExpiresAt with
    | some t =>
      if t > now + 5 * 60 * 1000 then accessToken.getD ""
      else
        match net with
        | .ok tok _ _ => some tok
        | .jsFail => none
    | none =>
      match net with
      | .ok tok _ _ => some tok
      | .jsFail => none

/-- The tweet-extraction loop of `fetchTweetsFromRapidAPI`: keep entries
whose id starts with "tweet-" and whose result is a `Tweet`, flattening
the fields (`views?.count || "0"` parsed, `reply_count || 0`). -/
def parseTweets (entries : List TimelineEntry) : List ParsedTweet :=
  entries.filterMap (fun entry =>
    if ("tweet-".toList).isPrefixOf entry.entryId.toList then
      match entry.result with
      | some result =>
        if result.typename == "Tweet" then
          some { tweetId := result.rest_id, userTweet := result.full_text
                 username := result.screen_name, views := result.views.getD 0
                 hearts := result.favorite_count
                 replies := result.reply_count }
        else none
      | none => none
    else none)

/-- Embeds `fetchTweetsFromRapidAPI` (the single rate-limited-by-nobody
`fetch` with a 15s abort): throws on non-2xx, else parses
`entries[0].entries`. -/
def fetchTweetsFromRapidAPI (net : RapidEndpoint) :
    Except String (List ParsedTweet) :=
  match net with
  | .httpError status => .error ("RapidAPI error: " ++ toString status)
  | .ok data =>
    .ok (parseTweets (((data.entries.head?).map (·.entries)).getD []))

/-- The ranking comparator of the Twitter route:
`sort((a, b) => b.hearts !== a.hearts ? b.hearts - a.hearts
               : a.replies - b.replies)` — hearts descending, then
replies ascending. -/
def heartsDesc (a b : ParsedTweet) : Prop :=
  b.hearts < a.hearts ∨ (b.hearts = a.hearts ∧ a.replies ≤ b.replies)

instance : DecidableRel heartsDesc := fun a b =>
  inferInstanceAs (Decidable (b.hearts < a.hearts ∨
    (b.hearts = a.hearts ∧ a.replies ≤ b.replies)))

instance : IsTotal ParsedTweet heartsDesc := by
  constructor
  intro a b
  unfold heartsDesc
  rcases lt_trichotomy a.hearts b.hearts with h | h | h
  · right; left; exact h
  · rcases le_total a.replies b.replies with hr | hr
    · left; right; exact ⟨h.symm, hr⟩
    · right; right; exact ⟨h, hr⟩
  · left; left; exact h

instance : IsTrans ParsedTweet heartsDesc := by
  constructor
  intro a b c hab hbc
  unfold heartsDesc at *
  rcases hab with h1 | ⟨h1, h1r⟩ <;> rcases hbc with h2 | ⟨h2, h2r⟩
  · left; exact lt_trans h2 h1
  · left; rw [h2]; exact h1
  · left; rw [← h1]; exact h2
  · right; exact ⟨h2.trans h1, le_trans h1r h2r⟩

/-- The route's ranking sort. -/
def sortTweets (l : List ParsedTweet) : List ParsedTweet :=
  List.insertionSort heartsDesc l

/-- The thinking-pattern openers of the Twitter route's
`generateReplyWithLLM`. -/
def twitterOpeners : List String :=
  ["The user wants", "I need to", "Let me", "Here\x27s my", "My reply",
   "I\x27ll write", "I should", "This tweet", "The tweet"]

/-- The residual meta-language markers of `generateReplyWithLLM`. -/
def twitterMarkers : List String :=
  ["Constraints:", "Rating:", "The user wants", "Key details:"]

/-- Embeds `generateReplyWithLLM` of the Twitter run route: the
Twitter-flavoured prompts, the shared response handling (empty check on
the raw trimmed content, cleanup only without a reasoning field) with
the Twitter opener/marker lists, a 300-character last-line cap, and a
final `slice(0, 280)`. -/
def generateReplyWithLLM (systemPrompt tweetContent username : String)
    (so : ViralKid.Reddit.StyleOptions)
    (net : ViralKid.Reddit.ChatEndpoint) : Except String String :=
  let _ := String.intercalate " "
    ([if systemPrompt.isEmpty then
        "You are a witty Twitter user who writes engaging replies."
      else systemPrompt,
      "Keep your reply under 280 characters.",
      "Be conversational and engaging."]
     ++ ViralKid.Reddit.styleInstructionList so
     ++ ["IMPORTANT: Output ONLY the tweet reply text itself. Do not include any reasoning, analysis, thinking, explanations, or meta-commentary. Just the raw reply text."])
  let _ := "Write a reply to this tweet from @" ++ username ++ ":\n\n\"" ++
    tweetContent ++ "\""
  match net with
  | .httpError body => .error ("OpenRouter error: " ++ body)
  | .ok content reasoning raw =>
    let reply := ViralKid.LLM.jsTrim (content.getD "")
    let hasReasoningField := !(ViralKid.jsStrFalsy reasoning)
    if reply.isEmpty then
      .error ("Empty response from LLM. Response: " ++ raw)
    else
      let cleaned :=
        if hasReasoningField then reply
        else ViralKid.LLM.cleanupReply twitterOpeners twitterMarkers 300 reply
      .ok (ViralKid.LLM.jsSlice cleaned 280)

/-- The route's `db.tweetInteraction.upsert` keyed on
`(accountId, tweetId)`. -/
def upsertTweetInteraction (ledger : List TweetInteraction)
    (best : ParsedTweet) (reply replyId : String) (freshId : Nat)
    (now : Int) : List TweetInteraction :=
  if ledger.any (fun r => r.tweetId == best.tweetId) then
    ledger.map (fun r =>
      if r.tweetId == best.tweetId then
        { r with userTweet := best.userTweet, username := best.username
                 views := best.views, hearts := best.hearts
                 replies := best.replies, ourReply := some reply
                 ourReplyId := some replyId, repliedAt := some now }
      else r)
  else
    ledger ++ [{ dbId := freshId, tweetId := best.tweetId
                 userTweet := best.userTweet, username := best.username
                 views := best.views, hearts := best.hearts
                 replies := best.replies, ourReply := some reply
                 ourReplyId := some replyId, repliedAt := some now
                 createdAt := now }]

/-- The route's stale-placeholder cleanup: delete rows whose `ourReply`
is null and whose `createdAt` is older than 24 hours.  This is the ONLY
deletion the Twitter route performs — it never prunes replied records. -/
def deleteStaleUnreplied (ledger : List TweetInteraction) (now : Int) :
    List TweetInteraction :=
  ledger.filter (fun r =>
    !(r.ourReply == none && decide (r.createdAt < now - 24 * 60 * 60 * 1000)))

/-- The pipeline body of the Twitter run route after the four
configuration guards have passed. -/
def mainTwitterPipeline (tc : TwitterDbCredentials) (cfg : TwitterDbConfig)
    (orc : OpenRouterDbCredentials) (ledger : List TweetInteraction)
    (env : TwitterEnv) : TwitterRunOut :=
  let log0 : List LogEntry := [⟨"info", "Pipeline started"⟩]
  match twRefreshTokenIfNeeded env.now tc.accessToken tc.refreshToken
      tc.tokenExpiresAt env.tokenNet with
  | none =>
    { response := .errorResp 401 "Twitter authentication failed"
      ledger := ledger
      logs := log0 ++ [⟨"error", "Failed to get valid access token"⟩] }
  | some _ =>
    let searchTerm := ViralKid.jsOrStr cfg.searchTerm "viral"
    let minimumLikesCount := cfg.minimumLikesCount.getD 20
    let _ := (searchTerm, minimumLikesCount)
    let logSearch : LogEntry :=
      ⟨"info", "Searching for \"" ++ searchTerm ++ "\" with min " ++
        toString minimumLikesCount ++ " likes"⟩
    match fetchTweetsFromRapidAPI env.rapidNet with
    | .error e =>
      { response := .errorResp 500 e, ledger := ledger
        logs := log0 ++ [logSearch, ⟨"error", e⟩] }
    | .ok tweets =>
      if tweets.length = 0 then
        { response := .noReply "No tweets found matching criteria"
          ledger := ledger
          logs := log0 ++ [logSearch,
            ⟨"warning", "No tweets found matching criteria"⟩] }
      else
        let logFound : LogEntry :=
          ⟨"info", "Found " ++ toString tweets.length ++ " tweets"⟩
        -- interactions for this account restricted to the fetched ids,
        -- then those with a truthy ourReply
        let repliedTweetIds :=
          ((ledger.filter (fun r =>
              (tweets.map (·.tweetId)).contains r.tweetId)).filter
            (fun r => !(ViralKid.jsStrFalsy r.ourReply))).map (·.tweetId)
        let unrepliedTweets :=
          tweets.filter (fun t => !(repliedTweetIds.contains t.tweetId))
        if unrepliedTweets.length = 0 then
          { response := .noReply "All found tweets have been replied to already"
            ledger := ledger
            logs := log0 ++ [logSearch, logFound,
              ⟨"warning", "All found tweets have been replied to"⟩] }
        else
          match (sortTweets unrepliedTweets).head? with
          | none =>
            -- unreachable: the source indexes `unrepliedTweets[0]!`
            { response := .noReply "All found tweets have been replied to already"
              ledger := ledger
              logs := log0 ++ [logSearch, logFound] }
          | some bestTweet =>
            let logSel : LogEntry :=
              ⟨"info", "Selected tweet by @" ++ bestTweet.username⟩
            match generateReplyWithLLM
                (ViralKid.jsOrStr orc.systemPrompt "") bestTweet.userTweet
                bestTweet.username
                { noHashtags := orc.noHashtags, noEmojis := orc.noEmojis
                  noCapitalization := orc.noCapitalization
                  badGrammar := orc.badGrammar } env.chatNet with
            | .error e =>
              { response := .errorResp 500 e, ledger := ledger
                logs := log0 ++ [logSearch, logFound, logSel,
                  ⟨"error", "LLM error: " ++ e⟩] }
            | .ok generatedReply =>
              let logGen : LogEntry :=
                ⟨"info", "Generated reply: \"" ++
                  ViralKid.LLM.jsSlice generatedReply 50 ++ "...\""⟩
              match env.postNet with
              | .error e =>
                { response := .errorResp 500 e, ledger := ledger
                  logs := log0 ++ [logSearch, logFound, logSel, logGen,
                    ⟨"error", "Twitter API error: " ++ e⟩] }
              | .ok replyId =>
                let logPosted : LogEntry :=
                  ⟨"success", "Posted reply to @" ++ bestTweet.username⟩
                match env.recordOutcome with
                | .ok _ =>
                  { response := .success bestTweet.username bestTweet.tweetId
                      replyId generatedReply
                    ledger := deleteStaleUnreplied
                      (upsertTweetInteraction ledger bestTweet generatedReply
                        replyId env.freshId env.now) env.now
                    logs := log0 ++ [logSearch, logFound, logSel, logGen,
                      logPosted] }
                | .error _ =>
                  { response := .success bestTweet.username bestTweet.tweetId
                      replyId generatedReply
                    ledger := ledger
                    logs := log0 ++ [logSearch, logFound, logSel, logGen,
                      logPosted,
                      ⟨"warning", "Reply posted but failed to record in database"⟩] }

/-- The Twitter run route (`POST /api/twitter/run`) after account
lookup: the four configuration guards in source order, then the
pipeline body. -/
def runTwitterPipeline (twitterCredentials : Option TwitterDbCredentials)
    (twitterConfig : Option TwitterDbConfig)
    (openRouterCredentials : Option OpenRouterDbCredentials)
    (ledger : List TweetInteraction) (env : TwitterEnv) : TwitterRunOut :=
  match twitterCredentials with
  | none =>
    { response := .errorResp 400 "RapidAPI key not configured"
      ledger := ledger, logs := [⟨"error", "RapidAPI key not configured"⟩] }
  | some tc =>
    if ViralKid.jsStrFalsy tc.rapidApiKey then
      { response := .errorResp 400 "RapidAPI key not configured"
        ledger := ledger, logs := [⟨"error", "RapidAPI key not configured"⟩] }
    else if ViralKid.jsStrFalsy tc.accessToken then
      { response := .errorResp 400 "Twitter OAuth not connected"
        ledger := ledger, logs := [⟨"error", "Twitter OAuth not connected"⟩] }
    else
      match openRouterCredentials with
      | none =>
        { response := .errorResp 400 "OpenRouter API key not configured"
          ledger := ledger
          logs := [⟨"error", "OpenRouter API key not configured"⟩] }
      | some orc =>
        if ViralKid.jsStrFalsy orc.apiKey then
          { response := .errorResp 400 "OpenRouter API key not configured"
            ledger := ledger
            logs := [⟨"error", "OpenRouter API key not configured"⟩] }
        else if ViralKid.jsStrFalsy orc.selectedModel then
          { response := .errorResp 400 "No LLM model selected"
            ledger := ledger, logs := [⟨"error", "No LLM model selected"⟩] }
        else
          mainTwitterPipeline tc (twitterConfig.getD
            { searchTerm := none, minimumLikesCount := none }) orc ledger env

theorem mainTwitterPipeline_record_error (tc : TwitterDbCredentials)
    (cfg : TwitterDbConfig) (orc : OpenRouterDbCredentials)
    (ledger : List TweetInteraction) (env : TwitterEnv)
    (a ti ri rep e : String)
    (h : (mainTwitterPipeline tc cfg orc ledger env).response =
      .success a ti ri rep) :
    (mainTwitterPipeline tc cfg orc ledger
      { env with recordOutcome := .error e }).response = .success a ti ri rep ∧
    (⟨"warning", "Reply posted but failed to record in database"⟩ : LogEntry) ∈
      (mainTwitterPipeline tc cfg orc ledger
        { env with recordOutcome := .error e }).logs ∧
    ∀ lg ∈ (mainTwitterPipeline tc cfg orc ledger
        { env with recordOutcome := .error e }).logs, lg.level ≠ "error" := by
  unfold mainTwitterPipeline at h
  dsimp only at h
  split at h
  · exact absurd h (by simp)
  · rename_i tok htok
    split at h
    · exact absurd h (by simp)
    · rename_i tweets hfetch
      split at h
      · exact absurd h (by simp)
      · rename_i hne1
        split at h
        · exact absurd h (by simp)
        · rename_i hne2
          split at h
          · exact absurd h (by simp)
          · rename_i best hhead
            split at h
            · exact absurd h (by simp)
            · rename_i gen hgen
              split at h
              · exact absurd h (by simp)
              · rename_i rid hpost
                have hred : mainTwitterPipeline tc cfg orc ledger
                    { env with recordOutcome := .error e } =
                    { response := .success best.username best.tweetId rid gen
                      ledger := ledger
                      logs := [⟨"info", "Pipeline started"⟩] ++
                        [⟨"info", "Searching for \"" ++
                            ViralKid.jsOrStr cfg.searchTerm "viral" ++
                            "\" with min " ++
                            toString (cfg.minimumLikesCount.getD 20) ++
                            " likes"⟩,
                          ⟨"info", "Found " ++ toString tweets.length ++
                            " tweets"⟩,
                          ⟨"info", "Selected tweet by @" ++ best.username⟩,
                          ⟨"info", "Generated reply: \"" ++
                            ViralKid.LLM.jsSlice gen 50 ++ "...\""⟩,
                          ⟨"success", "Posted reply to @" ++ best.username⟩,
                          ⟨"warning", "Reply posted but failed to record in database"⟩] } := by
                  unfold mainTwitterPipeline
                  dsimp only
                  rw [htok]
                  dsimp only
                  rw [hfetch]
                  dsimp only
                  rw [if_neg hne1, if_neg hne2, hhead]
                  dsimp only
                  rw [hgen]
                  dsimp only
                  rw [hpost]
                rw [hred]
                split at h <;>
                  (dsimp only at h
                   injection h with h1 h2 h3 h4
                   subst h1
                   subst h2
                   subst h3
                   subst h4
                   refine ⟨rfl, by simp, ?_⟩
                   intro lg hlg
                   simp only [List.mem_append, List.mem_cons,
                     List.mem_singleton, List.not_mem_nil] at hlg
                   rcases hlg with hlg | hlg | hlg | hlg | hlg | hlg | hlg <;>
                     first
                       | (subst hlg; simp)
                       | simp_all)

theorem runTwitterPipeline_record_error (tcs : Option TwitterDbCredentials)
    (tcfg : Option TwitterDbConfig) (orc : Option OpenRouterDbCredentials)
    (ledger : List TweetInteraction) (env : TwitterEnv)
    (a ti ri rep e : String)
    (h : (runTwitterPipeline tcs tcfg orc ledger env).response =
      .success a ti ri rep) :
    (runTwitterPipeline tcs tcfg orc ledger
      { env with recordOutcome := .error e }).response = .success a ti ri rep ∧
    (⟨"warning", "Reply posted but failed to record in database"⟩ : LogEntry) ∈
      (runTwitterPipeline tcs tcfg orc ledger
        { env with recordOutcome := .error e }).logs ∧
    ∀ lg ∈ (runTwitterPipeline tcs tcfg orc ledger
        { env with recordOutcome := .error e }).logs, lg.level ≠ "error" := by
  unfold runTwitterPipeline at h ⊢
  cases tcs with
  | none => simp at h
  | some tc =>
    dsimp only at h ⊢
    by_cases h1 : ViralKid.jsStrFalsy tc.rapidApiKey = true
    · rw [if_pos h1] at h; simp at h
    · rw [if_neg h1] at h; rw [if_neg h1]
      by_cases h2 : ViralKid.jsStrFalsy tc.accessToken = true
      · rw [if_pos h2] at h; simp at h
      · rw [if_neg h2] at h; rw [if_neg h2]
        cases orc with
        | none => simp at h
        | some orcv =>
          dsimp only at h ⊢
          by_cases h3 : ViralKid.jsStrFalsy orcv.apiKey = true
          · rw [if_pos h3] at h; simp at h
          · rw [if_neg h3] at h; rw [if_neg h3]
            by_cases h4 : ViralKid.jsStrFalsy orcv.selectedModel = true
            · rw [if_pos h4] at h; simp at h
            · rw [if_neg h4] at h; rw [if_neg h4]
              exact mainTwitterPipeline_record_error tc _ orcv ledger env
                a ti ri rep e h

end ViralKid.TwitterRun

namespace ViralKid.Claims

open ViralKid.Reddit

/-- Claim C6: `refreshTokenIfNeeded` performs no network call on its two
fast paths: with `accessToken` or `refreshToken` absent it returns null
immediately, and with `tokenExpiresAt` more than 5 minutes after the
current time (and both tokens present, the first path not having fired)
it returns the existing `accessToken` and `tokenExpiresAt` unchanged. -/
theorem c6_refresh_fast_paths (now : Int) (c : RedditCredentialsForRefresh)
    (net : TokenEndpoint) :
    ((c.accessToken = none ∨ c.refreshToken = none) →
      refreshTokenIfNeeded now c net = { result := .ok none, calls := [] }) ∧
    (∀ s t, c.accessToken = some s → s.isEmpty = false →
      jsStrFalsy c.refreshToken = false →
      c.tokenExpiresAt = some t → t > now + 5 * 60 * 1000 →
      refreshTokenIfNeeded now c net =
        { result := .ok (some { accessToken := s, expiresAt := t })
          calls := [] }) := by
  constructor
  · intro h
    unfold refreshTokenIfNeeded
    rcases h with h | h <;> simp [h, jsStrFalsy]
  · intro s t hA hAe hR hE ht
    unfold refreshTokenIfNeeded
    unfold jsStrFalsy at hR
    have ht' : now + 5 * 60 * 1000 < t := ht
    simp [hA, hAe, hR, hE, jsStrFalsy, ht']
    intro hle
    exact absurd hle (by omega)

/-- Claim C6 witness: the fast paths evaluated at concrete credentials. -/
theorem c6_refresh_fast_paths_witness :
    refreshTokenIfNeeded 0
      { clientId := "id", clientSecret := "sec", accessToken := none
        refreshToken := some "r", tokenExpiresAt := some 999999999 }
      (.ok "fresh" 3600) = { result := .ok none, calls := [] } ∧
    refreshTokenIfNeeded 0
      { clientId := "id", clientSecret := "sec", accessToken := some "tok"
        refreshToken := some "r", tokenExpiresAt := some 999999999 }
      (.ok "fresh" 3600) =
        { result := .ok (some { accessToken := "tok", expiresAt := 999999999 })
          calls := [] } :=
  ⟨(c6_refresh_fast_paths 0 _ _).1 (Or.inl rfl),
   (c6_refresh_fast_paths 0 _ _).2 "tok" 999999999 rfl (by decide) (by decide)
     rfl (by decide)⟩

/-- Claim C5 counterexample: credentials with both tokens present and a
null `tokenExpiresAt` do NOT short-circuit: `refreshTokenIfNeeded`
issues the token-endpoint call and returns the endpoint's fresh token,
not the existing one. -/
theorem c5_counterexample :
    refreshTokenIfNeeded 1000
      { clientId := "id", clientSecret := "sec"
        accessToken := some "old_access", refreshToken := some "refresh"
        tokenExpiresAt := none }
      (.ok "new_access" 3600) =
      { result := .ok (some { accessToken := "new_access"
                              expiresAt := 1000 + 3600 * 1000 })
        calls := [{ target := "reddit-token", viaLimiter := false }] } ∧
    ("new_access" : String) ≠ "old_access" := by
  constructor
  · rfl
  · decide

/-- Claim C5 amended: a credentials value with both tokens present and
`tokenExpiresAt` absent is treated as expired, not non-expiring: the
function performs exactly one token-endpoint network call and returns
that call's outcome (a fresh token on 2xx). -/
theorem c5_amended (now : Int) (c : RedditCredentialsForRefresh)
    (net : TokenEndpoint)
    (hA : jsStrFalsy c.accessToken = false)
    (hR : jsStrFalsy c.refreshToken = false)
    (hE : c.tokenExpiresAt = none) :
    (refreshTokenIfNeeded now c net).calls =
      [{ target := "reddit-token", viaLimiter := false }] ∧
    (∀ tok expi, net = .ok tok expi →
      (refreshTokenIfNeeded now c net).result =
        .ok (some { accessToken := tok, expiresAt := now + expi * 1000 })) := by
  unfold refreshTokenIfNeeded
  constructor
  · simp [hA, hR, hE]
    cases net <;> simp
  · intro tok expi hnet
    subst hnet
    simp [hA, hR, hE]

/-- Claim C5 amended, witness: the refresh path evaluated at concrete
credentials with a null expiry. -/
theorem c5_amended_witness :
    (refreshTokenIfNeeded 1000
      { clientId := "id", clientSecret := "sec"
        accessToken := some "old_access", refreshToken := some "refresh"
        tokenExpiresAt := none }
      (.ok "new_access" 3600)).calls =
        [{ target := "reddit-token", viaLimiter := false }] ∧
    (refreshTokenIfNeeded 1000
      { clientId := "id", clientSecret := "sec"
        accessToken := some "old_access", refreshToken := some "refresh"
        tokenExpiresAt := none }
      (.ok "new_access" 3600)).result =
        .ok (some { accessToken := "new_access", expiresAt := 1000 + 3600 * 1000 }) :=
  ⟨(c5_amended 1000 _ _ (by decide) (by decide) rfl).1,
   (c5_amended 1000 _ _ (by decide) (by decide) rfl).2 "new_access" 3600 rfl⟩

/-- Claim C8: `searchPosts` comma-splits the keywords, trims each entry,
drops empty entries and joins the remainder with " OR " into the single
query it sends; when every entry is empty after trimming it returns the
empty list with zero network calls. -/
theorem c8_searchPosts_keywords (accessToken keywords timeRange : String)
    (lim : Option Int) (net : SearchEndpoint) :
    (∀ req, (searchPosts accessToken
        { keywords := keywords, timeRange := timeRange, limit := lim }
        net).request = some req →
      req.q = String.intercalate " OR " (keywordListOf keywords)) ∧
    ((∀ k ∈ (LLM.splitOnChar ',' keywords.toList).map
        (fun cs => LLM.jsTrim (String.mk cs)), k.length = 0) →
      searchPosts accessToken
        { keywords := keywords, timeRange := timeRange, limit := lim } net =
        { result := .ok [], request := none, calls := [] }) := by
  constructor
  · intro req hreq
    unfold searchPosts at hreq
    by_cases h : (keywordListOf keywords).length = 0
    · simp [h] at hreq
    · simp only [h, if_false] at hreq
      cases net <;> simp only [] at hreq <;>
        (rw [Option.some.injEq] at hreq; rw [← hreq])
  · intro hall
    have hkl : keywordListOf keywords = [] := by
      unfold keywordListOf
      rw [List.filter_eq_nil_iff]
      intro a ha
      have hmem : a ∈ (LLM.splitOnChar ',' keywords.toList).map
          (fun cs => LLM.jsTrim (String.mk cs)) := by
        simpa [List.map_map, Function.comp] using ha
      have hlen : a.length = 0 := hall a hmem
      simp [hlen]
    unfold searchPosts
    simp [hkl]

/-- Claim C8 witness: the query building and the all-empty short-circuit
evaluated at concrete keyword strings. -/
theorem c8_searchPosts_keywords_witness :
    (∃ req, (searchPosts "access123"
        { keywords := "protein, supplements, fitness", timeRange := "week"
          limit := some 50 } (.ok [])).request = some req ∧
      req.q = "protein OR supplements OR fitness") ∧
    searchPosts "access123"
        { keywords := "   ,  ,   ", timeRange := "day", limit := none }
        (.ok []) = { result := .ok [], request := none, calls := [] } := by
  constructor
  · have h := (c8_searchPosts_keywords "access123"
      "protein, supplements, fitness" "week" (some 50) (.ok [])).1
    refine ⟨_, rfl, ?_⟩
    exact (h _ rfl).trans (by rfl)
  · exact (c8_searchPosts_keywords "access123" "   ,  ,   " "day" none
      (.ok [])).2 (by decide)

/-- The relevant sample options for exercising `generateReply`. -/
def sampleGenOptions : GenerateReplyOptions :=
  { apiKey := "openrouter_key", model := "m", systemPrompt := ""
    postTitle := "T", postBody := "", postAuthor := "a", subreddit := "s"
    styleOptions := { noHashtags := false, noEmojis := false
                      noCapitalization := false, badGrammar := false } }

/-- Claim C4 counterexample: a 2xx provider response whose content is the
non-empty string "I need to reply." passes the emptiness check, is then
stripped to nothing by the thinking-pattern cleanup, and is returned as
the empty string — `generateReply` returns normally with an empty reply,
so the extracted content being empty after post-processing does not make
it throw. -/
theorem c4_counterexample :
    (generateReply sampleGenOptions
      (.ok (some "I need to reply.") none "{}")).result = .ok "" := by
  rfl

/-- Claim C4 amended: `generateReply` throws exactly when the provider
responds non-2xx (surfacing the upstream error body) or when the trimmed
raw content is empty BEFORE post-processing; on a non-empty raw content
it returns normally, though post-processing may leave the returned reply
empty. -/
theorem c4_amended (options : GenerateReplyOptions) (net : ChatEndpoint) :
    (∀ body, net = .httpError body →
      (generateReply options net).result = .error ("OpenRouter error: " ++ body)) ∧
    (∀ content reasoning raw, net = .ok content reasoning raw →
      ((LLM.jsTrim (content.getD "")).isEmpty = true →
        (generateReply options net).result =
          .error ("Empty response from LLM. Response: " ++ raw)) ∧
      ((LLM.jsTrim (content.getD "")).isEmpty = false →
        ∃ s, (generateReply options net).result = .ok s)) := by
  constructor
  · intro body hnet
    subst hnet
    rfl
  · intro content reasoning raw hnet
    subst hnet
    constructor
    · intro hempty
      unfold generateReply
      simp [hempty]
    · intro hne
      unfold generateReply
      simp [hne]

/-- Claim C4 amended, witness: the three behaviours at concrete
responses. -/
theorem c4_amended_witness :
    (generateReply sampleGenOptions (.httpError "API quota exceeded")).result =
      .error ("OpenRouter error: " ++ "API quota exceeded") ∧
    (generateReply sampleGenOptions (.ok (some "   ") none "{}")).result =
      .error ("Empty response from LLM. Response: " ++ "{}") ∧
    ∃ s, (generateReply sampleGenOptions
      (.ok (some "Nice write-up, thanks for sharing!") none "{}")).result = .ok s :=
  ⟨(c4_amended sampleGenOptions _).1 "API quota exceeded" rfl,
   ((c4_amended sampleGenOptions _).2 (some "   ") none "{}" rfl).1 (by decide),
   ((c4_amended sampleGenOptions _).2 (some "Nice write-up, thanks for sharing!")
      none "{}" rfl).2 (by decide)⟩

open ViralKid.RedditRun

/-- Demo credentials for concrete pipeline runs. -/
def demoCreds : RedditDbCredentials :=
  { clientId := "cid", clientSecret := "sec", accessToken := some "tok"
    refreshToken := some "ref", tokenExpiresAt := some 999999999
    username := some "me" }

/-- Demo Reddit config: a configured minimum-upvotes threshold of 0. -/
def demoCfg : RedditDbConfig :=
  { keywords := some "protein", timeRange := none, minimumUpvotes := some 0 }

/-- Demo OpenRouter credentials. -/
def demoOrc : OpenRouterDbCredentials :=
  { apiKey := some "key", selectedModel := some "model", systemPrompt := none
    noHashtags := false, noEmojis := false, noCapitalization := false
    badGrammar := false }

/-- A fetched post with 5 upvotes, authored by a third party, never
replied to. -/
def demoLowPost : Reddit.RedditPost :=
  { id := "p1", name := "t3_p1", title := "Low post", selftext := ""
    author := "someone", subreddit := "sub", url := "u", permalink := "/r/x"
    ups := 5, num_comments := 2, created_utc := 0 }

/-- A fetched post with 50 upvotes. -/
def demoHighPost : Reddit.RedditPost :=
  { demoLowPost with id := "p2", name := "t3_p2", title := "High post"
                     ups := 50 }

/-- Oracles for a run in which the search returns only the 5-upvote
post. -/
def demoEnvLow : RedditEnv :=
  { now := 0, tokenNet := .ok "fresh" 3600, searchNet := .ok [demoLowPost]
    chatNet := .ok (some "Nice post, thanks for sharing it!") none "{}"
    commentNet := .ok (some "t1_c1"), recordOutcome := .ok (), freshId := 7 }

/-- Oracles for a run in which the search returns both demo posts and
every step succeeds. -/
def demoEnvHigh : RedditEnv :=
  { demoEnvLow with searchNet := .ok [demoLowPost, demoHighPost] }

/-- Claim C1 counterexample: with a CONFIGURED minimum-engagement
threshold of 0 the fetched 5-upvote post satisfies the claim's
eligibility (not replied before, 5 ≥ 0, foreign author, not deleted),
yet the run replies to nothing: `minimumUpvotes || 10` turns the
configured 0 into 10 and the pipeline reports the no-action outcome. -/
theorem c1_counterexample :
    (runRedditPipeline (some demoCreds) (some demoCfg) (some demoOrc) []
      demoEnvLow).response = .noAction "No eligible posts found" ∧
    demoEnvLow.searchNet = .ok [demoLowPost] ∧
    claimEligible [] demoCfg.minimumUpvotes demoCreds.username demoLowPost =
      true := by
  refine ⟨by rfl, rfl, by rfl⟩

/-- Claim C1 amended: in every Reddit pipeline run that reaches the
selection step, eligibility uses the EFFECTIVE threshold
`minimumUpvotes || 10` (a configured 0 falls back to 10, like an absent
configuration); the chosen post is an eligible candidate with the
maximum upvote count among all eligible candidates, and zero eligible
candidates yield the normal non-error no-action outcome. -/
theorem c1_amended_selection (rc : RedditDbCredentials)
    (cfg : RedditDbConfig) (orc : OpenRouterDbCredentials)
    (ledger : List RedditInteraction) (env : RedditEnv) :
    (∀ tr posts,
      (Reddit.refreshTokenIfNeeded env.now
        { clientId := rc.clientId, clientSecret := rc.clientSecret
          accessToken := rc.accessToken, refreshToken := rc.refreshToken
          tokenExpiresAt := rc.tokenExpiresAt } env.tokenNet).result =
        .ok (some tr) →
      (Reddit.searchPosts tr.accessToken
        { keywords := cfg.keywords.getD ""
          timeRange := ViralKid.jsOrStr cfg.timeRange "day", limit := none }
        env.searchNet).result = .ok posts →
      eligiblePosts posts (ledger.map (·.postId)) cfg.minimumUpvotes
        rc.username = [] →
      (mainRedditPipeline rc cfg orc ledger env).response =
        .noAction "No eligible posts found") ∧
    (∀ a t c, (mainRedditPipeline rc cfg orc ledger env).response =
        .success a t c →
      ∃ tr posts p,
        (Reddit.refreshTokenIfNeeded env.now
          { clientId := rc.clientId, clientSecret := rc.clientSecret
            accessToken := rc.accessToken, refreshToken := rc.refreshToken
            tokenExpiresAt := rc.tokenExpiresAt } env.tokenNet).result =
          .ok (some tr) ∧
        (Reddit.searchPosts tr.accessToken
          { keywords := cfg.keywords.getD ""
            timeRange := ViralKid.jsOrStr cfg.timeRange "day", limit := none }
          env.searchNet).result = .ok posts ∧
        p ∈ eligiblePosts posts (ledger.map (·.postId)) cfg.minimumUpvotes
          rc.username ∧
        (∀ q ∈ eligiblePosts posts (ledger.map (·.postId)) cfg.minimumUpvotes
          rc.username, q.ups ≤ p.ups) ∧
        a = p.author ∧ t = p.title) := by
  constructor
  · intro tr posts htok hsearch helig
    exact mainRedditPipeline_no_eligible rc cfg orc ledger env tr posts htok
      hsearch helig
  · intro a t c h
    obtain ⟨tr, posts, p, gen, cid, htok, hsearch, hmem, hmax, ha, ht, _, _⟩ :=
      mainRedditPipeline_success_anatomy rc cfg orc ledger env a t c h
    exact ⟨tr, posts, p, htok, hsearch, hmem, hmax, ha, ht⟩

/-- Claim C1 amended, witness: the no-action branch at the 5-upvote run
and the max-selection branch at the two-post run (the 50-upvote post is
chosen). -/
theorem c1_amended_selection_witness :
    (mainRedditPipeline demoCreds demoCfg demoOrc [] demoEnvLow).response =
      .noAction "No eligible posts found" ∧
    ∃ tr posts p,
      (Reddit.refreshTokenIfNeeded demoEnvHigh.now
        { clientId := demoCreds.clientId, clientSecret := demoCreds.clientSecret
          accessToken := demoCreds.accessToken
          refreshToken := demoCreds.refreshToken
          tokenExpiresAt := demoCreds.tokenExpiresAt }
        demoEnvHigh.tokenNet).result = .ok (some tr) ∧
      (Reddit.searchPosts tr.accessToken
        { keywords := demoCfg.keywords.getD ""
          timeRange := ViralKid.jsOrStr demoCfg.timeRange "day", limit := none }
        demoEnvHigh.searchNet).result = .ok posts ∧
      p ∈ eligiblePosts posts (([] : List RedditInteraction).map (·.postId))
        demoCfg.minimumUpvotes demoCreds.username ∧
      (∀ q ∈ eligiblePosts posts (([] : List RedditInteraction).map (·.postId))
        demoCfg.minimumUpvotes demoCreds.username, q.ups ≤ p.ups) ∧
      "someone" = p.author ∧ "High post" = p.title :=
  ⟨(c1_amended_selection demoCreds demoCfg demoOrc [] demoEnvLow).1
      { accessToken := "tok", expiresAt := 999999999 } [demoLowPost]
      (by rfl) (by rfl) (by rfl),
   (c1_amended_selection demoCreds demoCfg demoOrc [] demoEnvHigh).2
      "someone" "High post" "Nice post, thanks for sharing it!" (by rfl)⟩

/-- Claim C2: no outbound call of the embedded Reddit pipeline passes
through a rate limiter — the Bottleneck limiters of the rate-limiter
module are never consulted by any pipeline code path, every `fetch` is
issued directly; in particular the demo run issues its candidate-fetch
call to the Reddit search API outside any limiter. -/
theorem c2_no_limiter :
    (∀ (rcs : Option RedditDbCredentials) (cfg : Option RedditDbConfig)
      (orc : Option OpenRouterDbCredentials)
      (ledger : List RedditInteraction) (env : RedditEnv)
      (call : ViralKid.HttpCall),
      call ∈ (runRedditPipeline rcs cfg orc ledger env).calls →
      call.viaLimiter = false) ∧
    ({ target := "reddit-search", viaLimiter := false } : ViralKid.HttpCall) ∈
      (runRedditPipeline (some demoCreds) (some demoCfg) (some demoOrc) []
        demoEnvHigh).calls := by
  constructor
  · intro rcs cfg orc ledger env call hc
    exact runRedditPipeline_unlimited rcs cfg orc ledger env call hc
  · decide

/-- Claim C2 witness: the universal part applied to the demo run's
search call. -/
theorem c2_no_limiter_witness :
    ({ target := "reddit-search", viaLimiter := false } : ViralKid.HttpCall).viaLimiter
      = false :=
  c2_no_limiter.1 (some demoCreds) (some demoCfg) (some demoOrc) []
    demoEnvHigh { target := "reddit-search", viaLimiter := false }
    (by decide)

/-- Claim C3: in both pipelines, if the reply was posted successfully,
then replacing the interaction-record outcome by a failure leaves the
response unchanged (still overall success with the same reply details),
adds a warning log, and produces no error-level log. -/
theorem c3_record_failure_warning_only :
    (∀ (rcs : Option RedditDbCredentials) (cfg : Option RedditDbConfig)
      (orc : Option OpenRouterDbCredentials)
      (ledger : List RedditInteraction) (env : RedditEnv) (a t c e : String),
      (runRedditPipeline rcs cfg orc ledger env).response = .success a t c →
      (runRedditPipeline rcs cfg orc ledger
        { env with recordOutcome := .error e }).response = .success a t c ∧
      (⟨"warning", "Comment posted but failed to record in database"⟩ :
        LogEntry) ∈ (runRedditPipeline rcs cfg orc ledger
          { env with recordOutcome := .error e }).logs ∧
      ∀ lg ∈ (runRedditPipeline rcs cfg orc ledger
          { env with recordOutcome := .error e }).logs, lg.level ≠ "error") ∧
    (∀ (tcs : Option ViralKid.TwitterRun.TwitterDbCredentials)
      (tcfg : Option ViralKid.TwitterRun.TwitterDbConfig)
      (orc : Option OpenRouterDbCredentials)
      (ledger : List ViralKid.TwitterRun.TweetInteraction)
      (env : ViralKid.TwitterRun.TwitterEnv) (a ti ri rep e : String),
      (ViralKid.TwitterRun.runTwitterPipeline tcs tcfg orc ledger
        env).response = .success a ti ri rep →
      (ViralKid.TwitterRun.runTwitterPipeline tcs tcfg orc ledger
        { env with recordOutcome := .error e }).response =
        .success a ti ri rep ∧
      (⟨"warning", "Reply posted but failed to record in database"⟩ :
        LogEntry) ∈ (ViralKid.TwitterRun.runTwitterPipeline tcs tcfg orc
          ledger { env with recordOutcome := .error e }).logs ∧
      ∀ lg ∈ (ViralKid.TwitterRun.runTwitterPipeline tcs tcfg orc ledger
          { env with recordOutcome := .error e }).logs,
        lg.level ≠ "error") := by
  constructor
  · intro rcs cfg orc ledger env a t c e h
    obtain ⟨rc, cfgv, orcv, rfl, rfl, rfl, hdel⟩ :=
      runRedditPipeline_success_delegates _ _ _ _ _ _ _ _ h
    rw [hdel] at h
    rw [hdel]
    exact mainRedditPipeline_record_error rc cfgv orcv ledger env a t c e h
  · intro tcs tcfg orc ledger env a ti ri rep e h
    exact ViralKid.TwitterRun.runTwitterPipeline_record_error tcs tcfg orc
      ledger env a ti ri rep e h

/-- Claim C3 witness: the demo Reddit run still succeeds, with the
warning logged, when its record step fails. -/
theorem c3_record_failure_warning_only_witness :
    (runRedditPipeline (some demoCreds) (some demoCfg) (some demoOrc) []
      { demoEnvHigh with recordOutcome := .error "db down" }).response =
      .success "someone" "High post" "Nice post, thanks for sharing it!" ∧
    (⟨"warning", "Comment posted but failed to record in database"⟩ : LogEntry) ∈
      (runRedditPipeline (some demoCreds) (some demoCfg) (some demoOrc) []
        { demoEnvHigh with recordOutcome := .error "db down" }).logs ∧
    ∀ lg ∈ (runRedditPipeline (some demoCreds) (some demoCfg) (some demoOrc) []
        { demoEnvHigh with recordOutcome := .error "db down" }).logs,
      lg.level ≠ "error" :=
  c3_record_failure_warning_only.1 (some demoCreds) (some demoCfg)
    (some demoOrc) [] demoEnvHigh "someone" "High post"
    "Nice post, thanks for sharing it!" "db down" (by rfl)

/-- Demo Twitter credentials. -/
def demoTwCreds : ViralKid.TwitterRun.TwitterDbCredentials :=
  { clientId := "cid", clientSecret := "sec", accessToken := some "tok"
    refreshToken := some "ref", tokenExpiresAt := some 999999999999
    rapidApiKey := some "rk" }

/-- Demo Twitter config. -/
def demoTwCfg : ViralKid.TwitterRun.TwitterDbConfig :=
  { searchTerm := some "viral", minimumLikesCount := some 20 }

/-- A Twitter Interaction Ledger already holding 101 REPLIED records. -/
def demoBigTwLedger : List ViralKid.TwitterRun.TweetInteraction :=
  (List.range 101).map (fun i =>
    { dbId := i, tweetId := "old" ++ toString i, userTweet := "t"
      username := "u", views := 0, hearts := 0, replies := 0
      ourReply := some "r", ourReplyId := some "ri"
      repliedAt := some 0, createdAt := 0 })

/-- The one tweet the demo RapidAPI response carries. -/
def demoTweetResult : ViralKid.TwitterRun.TweetResult :=
  { typename := "Tweet", rest_id := "tw1", screen_name := "user1"
    views := some 500, full_text := "hello world", favorite_count := 90
    reply_count := 3 }

/-- Oracles for a successful Twitter run whose record step succeeds. -/
def demoTwEnv : ViralKid.TwitterRun.TwitterEnv :=
  { now := 1000000, tokenNet := .ok "a" "r" 3600
    rapidNet := .ok { entries := [{ entries :=
      [{ entryId := "tweet-1", result := some demoTweetResult }] }] }
    chatNet := .ok (some "Great thoughts here, friend!") none "{}"
    postNet := .ok "reply9", recordOutcome := .ok (), freshId := 500 }

/-- Claim C7 counterexample: a successful TWITTER pipeline run whose
record step succeeds over a ledger of 101 replied records leaves 102
records in the ledger — the Twitter route only deletes stale UNREPLIED
placeholder rows (older than 24 h) and never prunes the ledger to the
100 most-recent records. -/
theorem c7_counterexample :
    (ViralKid.TwitterRun.runTwitterPipeline (some demoTwCreds)
      (some demoTwCfg) (some demoOrc) demoBigTwLedger demoTwEnv).response =
      .success "user1" "tw1" "reply9" "Great thoughts here, friend!" ∧
    demoTwEnv.recordOutcome = .ok () ∧
    (ViralKid.TwitterRun.runTwitterPipeline (some demoTwCreds)
      (some demoTwCfg) (some demoOrc) demoBigTwLedger
      demoTwEnv).ledger.length = 102 := by
  refine ⟨by rfl, rfl, by rfl⟩

/-- Claim C7 amended (Reddit pipeline): after every successful Reddit
run whose interaction-record step succeeds, the account's ledger holds
at most 100 records, and every pre-run record that was deleted is no
newer than any kept record.  (The Twitter pipeline does not bound its
ledger — see the counterexample.) -/
theorem c7_amended_reddit_prune (rcs : Option RedditDbCredentials)
    (cfg : Option RedditDbConfig) (orc : Option OpenRouterDbCredentials)
    (ledger : List RedditInteraction) (env : RedditEnv) (a t c : String)
    (hresp : (runRedditPipeline rcs cfg orc ledger env).response =
      .success a t c)
    (hok : env.recordOutcome = .ok ())
    (hnodup : (ledger.map (·.dbId)).Nodup)
    (hfresh : ∀ r ∈ ledger, r.dbId ≠ env.freshId) :
    (runRedditPipeline rcs cfg orc ledger env).ledger.length ≤ 100 ∧
    ∀ r ∈ (runRedditPipeline rcs cfg orc ledger env).ledger, ∀ d ∈ ledger,
      d.dbId ∉ (runRedditPipeline rcs cfg orc ledger env).ledger.map (·.dbId) →
      d.createdAt ≤ r.createdAt := by
  obtain ⟨rc, cfgv, orcv, rfl, rfl, rfl, hdel⟩ :=
    runRedditPipeline_success_delegates _ _ _ _ _ _ _ _ hresp
  rw [hdel] at hresp ⊢
  obtain ⟨tr, posts, p, gen, cid, _, _, _, _, _, _, _, hledger⟩ :=
    mainRedditPipeline_success_anatomy rc cfgv orcv ledger env a t c hresp
  rw [hledger hok]
  have hnodup2 := upsertInteraction_nodup ledger p gen cid env.freshId
    env.now hnodup hfresh
  refine ⟨pruneInteractions_length_le _, ?_⟩
  intro r hr d hd hdid
  obtain ⟨d2, hd2mem, hdid2, hdca⟩ :=
    upsertInteraction_covers hd p gen cid env.freshId env.now
  have hle := pruneInteractions_recency _ hnodup2 r hr d2 hd2mem
    (by rw [hdid2]; exact hdid)
  rw [← hdca]
  exact hle

/-- A small pre-run ledger with distinct row ids. -/
def demoLedger : List RedditInteraction :=
  [{ dbId := 1, postId := "old1", subreddit := "sub", postTitle := "Old 1"
     postAuthor := "x", postUrl := "u1", upvotes := 3, commentCount := 0
     ourComment := "c1", ourCommentId := "i1", repliedAt := -5
     createdAt := -5 },
   { dbId := 2, postId := "old2", subreddit := "sub", postTitle := "Old 2"
     postAuthor := "y", postUrl := "u2", upvotes := 4, commentCount := 1
     ourComment := "c2", ourCommentId := "i2", repliedAt := -3
     createdAt := -3 }]

/-- Claim C7 amended, witness: a demo run over a two-record ledger keeps
at most 100 records with the recency property. -/
theorem c7_amended_reddit_prune_witness :
    (runRedditPipeline (some demoCreds) (some demoCfg) (some demoOrc)
      demoLedger demoEnvHigh).ledger.length ≤ 100 ∧
    ∀ r ∈ (runRedditPipeline (some demoCreds) (some demoCfg) (some demoOrc)
        demoLedger demoEnvHigh).ledger, ∀ d ∈ demoLedger,
      d.dbId ∉ (runRedditPipeline (some demoCreds) (some demoCfg)
        (some demoOrc) demoLedger demoEnvHigh).ledger.map (·.dbId) →
      d.createdAt ≤ r.createdAt :=
  c7_amended_reddit_prune (some demoCreds) (some demoCfg) (some demoOrc)
    demoLedger demoEnvHigh "someone" "High post"
    "Nice post, thanks for sharing it!" (by rfl) rfl (by decide) (by decide)

open ViralKid.TwitterReplies

/-- Claim C9: `batchReply` attempts every item even when earlier items
fail — its result has `total` equal to the number of input items,
`successful + failed = total`, and exactly one response per input item
in input order — whereas `createReplyThread` stops at the first failed
link: every non-final response is a success, and a thread shorter than
its text list ends in a failure. -/
theorem c9_batch_vs_thread (items : List BatchReplyItem)
    (net : Nat → Except JsError TweetData) (initialTweetId : String)
    (texts : List String) (net2 : Nat → Except JsError TweetData) :
    (batchReply items net).total = items.length ∧
    (batchReply items net).successful + (batchReply items net).failed =
      (batchReply items net).total ∧
    (batchReply items net).results.length = items.length ∧
    (batchReply items net).results.map (fun r => (r.id, r.tweetId)) =
      items.map (fun it => (it.id, it.tweetId)) ∧
    (createReplyThread initialTweetId texts net2).length ≤ texts.length ∧
    (∀ r ∈ (createReplyThread initialTweetId texts net2).dropLast,
      isSuccess r = true) ∧
    ((createReplyThread initialTweetId texts net2).length < texts.length →
      ∃ last, (createReplyThread initialTweetId texts net2).getLast? =
        some last ∧ isSuccess last = false) := by
  have hspec := createReplyThreadAux_spec net2 texts initialTweetId 0
  refine ⟨rfl, ?_, batchReplyAux_length net items 0, batchReplyAux_keys net items 0,
    hspec.1, hspec.2.1, hspec.2.2⟩
  show ((batchReplyAux net items 0).filter (fun r => isSuccess r.response)).length +
    ((batchReplyAux net items 0).filter (fun r => !isSuccess r.response)).length =
    items.length
  rw [filter_partition_length]
  exact batchReplyAux_length net items 0

/-- Sample batch items: the middle reply hits a duplicate error. -/
def demoItems : List BatchReplyItem :=
  [⟨"1", "100", "Reply one"⟩, ⟨"2", "200", "Reply two"⟩,
   ⟨"3", "300", "Reply three"⟩]

/-- Sample oracle: the second call throws a duplicate-content error,
the others succeed. -/
def demoNet : Nat → Except JsError TweetData :=
  fun i =>
    if i = 1 then .error (.jsError "Status is a duplicate of another tweet")
    else .ok ⟨"new" ++ toString i, "posted"⟩

/-- Claim C9 witness: with the failing middle call, the batch still
attempts all three items (one in-order response each,
successful + failed = 3), while the thread stops after its second
response, which is the failure. -/
theorem c9_batch_vs_thread_witness :
    (batchReply demoItems demoNet).total = 3 ∧
    (batchReply demoItems demoNet).successful +
      (batchReply demoItems demoNet).failed = 3 ∧
    (batchReply demoItems demoNet).results.length = 3 ∧
    (∃ last, (createReplyThread "t0" ["one", "two", "three"] demoNet).getLast? =
      some last ∧ isSuccess last = false) ∧
    ∀ r ∈ (createReplyThread "t0" ["one", "two", "three"] demoNet).dropLast,
      isSuccess r = true := by
  have h := c9_batch_vs_thread demoItems demoNet "t0" ["one", "two", "three"]
    demoNet
  refine ⟨h.1.trans (by decide), ?_, h.2.2.1.trans (by decide),
    h.2.2.2.2.2.2 (by decide), h.2.2.2.2.2.1⟩
  exact h.2.1.trans (h.1.trans (by decide))

/-- Claim C10: `replyToTweet` never throws — for every thrown value of
the underlying client it returns a `ReplyResponse`: the new tweet on
success, else `success: false` with a code drawn from the fixed set,
assigned by the `includes` checks on the error message in source
order. -/
theorem c10_replyToTweet_total (options : ReplyOptions)
    (net : Except JsError TweetData) :
    (∀ d, net = .ok d → replyToTweet options net = .success d.id d.text) ∧
    (∀ e, net = .error e → ∃ msg code,
      replyToTweet options net = .failure msg code ∧
      code ∈ (["RATE_LIMIT", "DUPLICATE", "NOT_FOUND", "UNAUTHORIZED",
        "FORBIDDEN", "UNKNOWN"] : List String)) ∧
    (∀ m, net = .error (.jsError m) →
      (ViralKid.LLM.containsSub m "Rate limit" = true →
        replyToTweet options net = .failure
          "Rate limit exceeded. Please wait before sending more replies."
          "RATE_LIMIT") ∧
      (ViralKid.LLM.containsSub m "Rate limit" = false →
        ViralKid.LLM.containsSub m "duplicate" = true →
        replyToTweet options net = .failure
          "Duplicate reply detected. This content was already posted."
          "DUPLICATE") ∧
      (ViralKid.LLM.containsSub m "Rate limit" = false →
        ViralKid.LLM.containsSub m "duplicate" = false →
        ViralKid.LLM.containsSub m "not found" = false →
        ViralKid.LLM.containsSub m "404" = false →
        ViralKid.LLM.containsSub m "unauthorized" = false →
        ViralKid.LLM.containsSub m "401" = false →
        ViralKid.LLM.containsSub m "forbidden" = false →
        ViralKid.LLM.containsSub m "403" = false →
        replyToTweet options net = .failure m "UNKNOWN")) ∧
    (net = .error .other → replyToTweet options net = .failure
      "An unexpected error occurred while posting the reply." "UNKNOWN") := by
  refine ⟨?_, ?_, ?_, ?_⟩
  · intro d hnet
    subst hnet
    rfl
  · intro e hnet
    subst hnet
    cases e with
    | jsError m =>
      unfold replyToTweet handleReplyError
      dsimp only
      by_cases h1 : ViralKid.LLM.containsSub m "Rate limit" = true
      · exact ⟨_, _, by rw [if_pos h1], by simp⟩
      · rw [if_neg h1]
        by_cases h2 : ViralKid.LLM.containsSub m "duplicate" = true
        · exact ⟨_, _, by rw [if_pos h2], by simp⟩
        · rw [if_neg h2]
          by_cases h3 : (ViralKid.LLM.containsSub m "not found" ||
              ViralKid.LLM.containsSub m "404") = true
          · exact ⟨_, _, by rw [if_pos h3], by simp⟩
          · rw [if_neg h3]
            by_cases h4 : (ViralKid.LLM.containsSub m "unauthorized" ||
                ViralKid.LLM.containsSub m "401") = true
            · exact ⟨_, _, by rw [if_pos h4], by simp⟩
            · rw [if_neg h4]
              by_cases h5 : (ViralKid.LLM.containsSub m "forbidden" ||
                  ViralKid.LLM.containsSub m "403") = true
              · exact ⟨_, _, by rw [if_pos h5], by simp⟩
              · rw [if_neg h5]
                exact ⟨_, _, rfl, by simp⟩
    | other => exact ⟨_, _, rfl, by simp⟩
  · intro m hnet
    subst hnet
    unfold replyToTweet handleReplyError
    dsimp only
    refine ⟨?_, ?_, ?_⟩
    · intro h1
      rw [if_pos h1]
    · intro h1 h2
      rw [if_neg (by simp [h1]), if_pos h2]
    · intro h1 h2 h3 h4 h5 h6 h7 h8
      rw [if_neg (by simp [h1]), if_neg (by simp [h2]),
        if_neg (by simp [h3, h4]), if_neg (by simp [h5, h6]),
        if_neg (by simp [h7, h8])]
  · intro hnet
    subst hnet
    rfl

/-- Claim C10 witness: the classification at concrete thrown errors. -/
theorem c10_replyToTweet_total_witness :
    replyToTweet ⟨"hi", "42", none, none⟩
      (.error (.jsError "Request failed: Rate limit exceeded")) =
      .failure "Rate limit exceeded. Please wait before sending more replies."
        "RATE_LIMIT" ∧
    replyToTweet ⟨"hi", "42", none, none⟩
      (.error (.jsError "something odd happened")) =
      .failure "something odd happened" "UNKNOWN" ∧
    replyToTweet ⟨"hi", "42", none, none⟩ (.ok ⟨"77", "hi"⟩) =
      .success "77" "hi" :=
  ⟨((c10_replyToTweet_total ⟨"hi", "42", none, none⟩
      (.error (.jsError "Request failed: Rate limit exceeded"))).2.2.1
      "Request failed: Rate limit exceeded" rfl).1 (by decide),
   ((c10_replyToTweet_total ⟨"hi", "42", none, none⟩
      (.error (.jsError "something odd happened"))).2.2.1
      "something odd happened" rfl).2.2 (by decide) (by decide) (by decide)
      (by decide) (by decide) (by decide) (by decide) (by decide),
   (c10_replyToTweet_total ⟨"hi", "42", none, none⟩
      (.ok ⟨"77", "hi"⟩)).1 ⟨"77", "hi"⟩ rfl⟩

end ViralKid.Claims
